import Mathlib

/-!
Verification of the java21-syntax-diagrams repository core: the grammar rule
registries (`javaGrammar.ts`, `java25Grammar.ts`), the diagram node model, the
render adapter (`callOrNew` / `rr`), the SVG serialization shim
(`diagramToSvg.ts`), the section filter (`App.tsx`), and the coverage
verifier (the `check-grammar` script).

Conventions of the embedding:
* The external `@prantlf/railroad-diagrams` package is out of the repository;
  its node constructors are modelled by the pure tree type `RRNode`, and its
  markup production (`toSVG`) by `markupOf`, following the spec boundary
  (spec sections 4.3 and 6).
* TS `Map<string, () => any>` registries become association lists
  `List (String × (Unit → RRNode))`; `Map.get` becomes `List.lookup`.
* JS strings become Lean `String`; braces inside string literals are written
  with `\x7b` / `\x7d` escapes and the ASCII quote with `\x27`.
-/

set_option maxHeartbeats 4000000
set_option maxRecDepth 10000

/-- The diagram node model: one constructor per node kind of the external
railroad-diagram capability, as used by the grammar files (`Diagram`,
`Sequence`, `Choice`, `Optional`, `OneOrMore`, `ZeroOrMore`, `Stack`,
`Comment`, `Terminal`, `NonTerminal`). `Choice`'s first argument is the
default-branch index. -/
inductive RRNode where
  | terminal (text : String)
  | nonTerminal (text : String)
  | comment (text : String)
  | sequence (items : List RRNode)
  | choice (dflt : Nat) (items : List RRNode)
  | optional (item : RRNode)
  | oneOrMore (item : RRNode)
  | zeroOrMore (item : RRNode)
  | stack (items : List RRNode)
  | diagram (items : List RRNode)

/-- Precedence-chain helper, from `javaGrammar.ts`:
`function chain(base, ops) { return Sequence(NT(base), ZeroOrMore(Sequence(Choice(0, ...ops.map(T)), NT(base)))); }` -/
def chain (base : String) (ops : List String) : RRNode :=
  .sequence [.nonTerminal base,
    .zeroOrMore (.sequence [.choice 0 (ops.map (fun t => .terminal t)), .nonTerminal base])]

mutual
/-- Modelled from the spec: the markup-producing operation of the external
railroad-diagram capability (spec 4.3: "A completed diagram exposing a
markup-producing capability → its string output"; spec 5: construction and
serialization are pure and deterministic). Missing from the repository:
the `@prantlf/railroad-diagrams` package itself. Each node kind is rendered
as a markup element wrapping its label text or children. -/
def markupOf : RRNode → String
  | .terminal t => "<g class=terminal><text>" ++ t ++ "</text></g>"
  | .nonTerminal t => "<g class=non-terminal><text>" ++ t ++ "</text></g>"
  | .comment t => "<g class=comment><text>" ++ t ++ "</text></g>"
  | .sequence items => "<g class=sequence>" ++ markupList items ++ "</g>"
  | .choice d items =>
      "<g class=choice data-default=" ++ toString d ++ ">" ++ markupList items ++ "</g>"
  | .optional item => "<g class=optional>" ++ markupOf item ++ "</g>"
  | .oneOrMore item => "<g class=one-or-more>" ++ markupOf item ++ "</g>"
  | .zeroOrMore item => "<g class=zero-or-more>" ++ markupOf item ++ "</g>"
  | .stack items => "<g class=stack>" ++ markupList items ++ "</g>"
  | .diagram items => "<svg class=railroad-diagram>" ++ markupList items ++ "</svg>"

/-- Markup of a list of child nodes, concatenated in order. -/
def markupList : List RRNode → String
  | [] => ""
  | x :: xs => markupOf x ++ markupList xs
end

/-- Result of calling `toSVG()` on the value handed to `diagramToSvgString`:
a string, a DOM element (carrying its serialized markup), an unexpected
value, or a thrown error carrying a message. -/
inductive MarkupResult where
  | str (s : String)
  | element (outerHTML : String)
  | unexpected
  | throws (msg : String)

/-- The duck-typed input shape of `diagramToSvgString` (`diagram: any`):
falsy input, an object with a `toSVG` method, an object with only a
`toString` method (which may itself throw), or anything else. -/
inductive SvgInput where
  | empty
  | withToSVG (r : MarkupResult)
  | withToStringOnly (r : Except String String)
  | unrecognized

/-- Embedding of `diagramToSvgString` from `src/shared/railroad/diagramToSvg.ts`,
branch for branch:
`if (!diagram) return "<!-- empty diagram -->";` then inside `try`:
a string result of `toSVG()` is returned verbatim, an Element is serialized,
any other `toSVG()` value yields the fixed unexpected-value comment, a
`toString`-only object yields its string, anything else the fixed
unsupported-shape comment, and a caught exception yields
`"<!-- Render error: " + message + " -->"`. -/
def diagramToSvgString : SvgInput → String
  | .empty => "<!-- empty diagram -->"
  | .withToSVG (.str s) => s
  | .withToSVG (.element h) => h
  | .withToSVG .unexpected => "<!-- toSVG() returned unexpected value -->"
  | .withToSVG (.throws m) => "<!-- Render error: " ++ m ++ " -->"
  | .withToStringOnly (.ok s) => s
  | .withToStringOnly (.error m) => "<!-- Render error: " ++ m ++ " -->"
  | .unrecognized => "<!-- Diagram does not support toSVG/toString -->"

/-- Bridge from a rule-lookup result to the input shape of
`diagramToSvgString`. Modelled from the spec: a completed diagram built by
the external capability exposes `toSVG()` returning its markup string
deterministically (spec 4.3 and 6); `undefined` is the falsy input. -/
def toSvgInput : Option RRNode → SvgInput
  | none => .empty
  | some t => .withToSVG (.str (markupOf t))

/-- Substring containment, the Lean counterpart of JS `String.includes`:
the needle's character list occurs contiguously inside the haystack's. -/
def strContains (s pat : String) : Prop := pat.data <:+: s.data

instance (s pat : String) : Decidable (strContains s pat) :=
  inferInstanceAs (Decidable (pat.data <:+: s.data))

/-- JS `String.prototype.toLowerCase`, modelled characterwise on the
character list (the rule names and queries of interest are ASCII, where
the two coincide). -/
def jsToLower (s : String) : String := ⟨s.data.map Char.toLower⟩

/-- JS `String.prototype.trim`: strip leading and trailing whitespace. -/
def jsTrim (s : String) : String :=
  ⟨((s.data.dropWhile Char.isWhitespace).reverse.dropWhile Char.isWhitespace).reverse⟩

/-- The section filter from `App.tsx` (`filterNames`), identical in both
variants of the file:
`const q = query.trim().toLowerCase(); if (!q) return names;
return names.filter((n) => n.toLowerCase().includes(q));` -/
def filterNames (query : String) (names : List String) : List String :=
  let q := jsToLower (jsTrim query)
  if q = "" then names
  else names.filter (fun n => decide (strContains (jsToLower n) q))

/-- `missingEbnf` from the coverage script (`unnamed/part_003`):
`[...diagramRules].filter(r => !ebnfRules.has(r)).sort()`. The JS `sort()`
on the deduplicated name list is modelled by `insertionSort` under the
lexicographic order on `String`. -/
def missingEbnf (diagramRules ebnfRules : List String) : List String :=
  (diagramRules.filter (fun r => !(ebnfRules.contains r))).insertionSort (· ≤ ·)

/-- `missingDiagram` from the coverage script:
`[...ebnfRules].filter(r => !diagramRules.has(r)).sort()`. -/
def missingDiagram (diagramRules ebnfRules : List String) : List String :=
  (ebnfRules.filter (fun r => !(diagramRules.contains r))).insertionSort (· ≤ ·)

/-- `hasErrors` of the coverage script: set when either difference list is
non-empty. -/
def hasErrors (diagramRules ebnfRules : List String) : Bool :=
  decide ((missingEbnf diagramRules ebnfRules).length > 0)
    || decide ((missingDiagram diagramRules ebnfRules).length > 0)

/-- The process exit code of the coverage script: `process.exit(1)` when
`hasErrors`, else `process.exit(0)`. -/
def coverageExitCode (diagramRules ebnfRules : List String) : Nat :=
  if hasErrors diagramRules ebnfRules then 1 else 0

/-- A JS error value: whether it is a `TypeError`, and its message. -/
structure JsError where
  isTypeError : Bool
  message : String

/-- The ASCII single-quote character, written without a literal quote. -/
def sQuote : String := String.singleton (Char.ofNat 39)

/-- The message JS raises when a class constructor is invoked without `new`:
`Class constructor <name> cannot be invoked without 'new'`. -/
def classCallError (name : String) : JsError :=
  ⟨true, "Class constructor " ++ name ++ " cannot be invoked without " ++ sQuote ++ "new" ++ sQuote⟩

/-- A callable exported by the external diagram package, in either of the two
shapes it has shipped with (spec 4.3): a plain factory function (which may
also be `new`-constructed) or an ES class constructor. `α` is the value
type produced, `β` the argument-tuple type. The behaviors return
`Except JsError α`: a normal result or a thrown error. -/
inductive JsCallable (α β : Type) where
  | fnShape (call : β → Except JsError α) (construct : β → Except JsError α)
  | classShape (construct : β → Except JsError α) (name : String)

/-- Semantics of a direct JS call `fn(...args)`: a function shape runs its
call behavior; calling a class throws the fixed TypeError. -/
def directCall : JsCallable α β → β → Except JsError α
  | .fnShape call _, args => call args
  | .classShape _ n, _ => .error (classCallError n)

/-- Semantics of `new fn(...args)`. -/
def newCall : JsCallable α β → β → Except JsError α
  | .fnShape _ construct, args => construct args
  | .classShape construct _, args => construct args

/-- `__isClass` from `java25Grammar.ts`:
`typeof fn === "function" && /^class\s/.test(Function.prototype.toString.call(fn))`,
i.e. exactly the class-syntax shapes. -/
def isClassSyntax : JsCallable α β → Bool
  | .fnShape _ _ => false
  | .classShape _ _ => true

/-- The error signature recognized by `callOrNew` in `javaGrammar.ts`:
`e instanceof TypeError && /without 'new'/.test(e.message)`. -/
def callOrNewRecognizes (e : JsError) : Prop :=
  e.isTypeError = true ∧ strContains e.message ("without " ++ sQuote ++ "new" ++ sQuote)

instance (e : JsError) : Decidable (callOrNewRecognizes e) := by
  unfold callOrNewRecognizes; infer_instance

/-- The render adapter of `javaGrammar.ts`:
`function callOrNew(Ctor, ...args) { try { return Ctor(...args); } catch (e) {
if (e instanceof TypeError && /without 'new'/.test(e.message)) return new Ctor(...args);
throw e; } }` -/
def callOrNew (ctor : JsCallable α β) (args : β) : Except JsError α :=
  match directCall ctor args with
  | .ok v => .ok v
  | .error e =>
      if callOrNewRecognizes e then newCall ctor args else .error e

/-- The error signature recognized by `rr` in `java25Grammar.ts`:
`msg.includes("without 'new'") || msg.includes("Class constructor") || msg.includes("Cannot call a class as a function")`. -/
def rrRecognizes (e : JsError) : Prop :=
  strContains e.message ("without " ++ sQuote ++ "new" ++ sQuote)
    ∨ strContains e.message "Class constructor"
    ∨ strContains e.message "Cannot call a class as a function"

instance (e : JsError) : Decidable (rrRecognizes e) := by
  unfold rrRecognizes; infer_instance

/-- The render adapter of `java25Grammar.ts`:
`const rr = (fn, ...args) => { if (__isClass(fn)) return new fn(...args);
try { return fn(...args); } catch (err) { const msg = String(err?.message ?? err);
if (msg.includes(...) || msg.includes(...) || msg.includes(...)) return new fn(...args);
throw err; } }` -/
def rr (fn : JsCallable α β) (args : β) : Except JsError α :=
  if isClassSyntax fn then newCall fn args
  else
    match directCall fn args with
    | .ok v => .ok v
    | .error err =>
        if rrRecognizes err then newCall fn args else .error err

/-- The ten node-kind constructors exported by the external package, as a
bundle (spec 6: the render capability boundary). -/
structure RRLib (α β : Type) where
  Diagram : JsCallable α β
  Sequence : JsCallable α β
  Choice : JsCallable α β
  Optional : JsCallable α β
  OneOrMore : JsCallable α β
  ZeroOrMore : JsCallable α β
  Terminal : JsCallable α β
  NonTerminal : JsCallable α β
  Stack : JsCallable α β
  Comment : JsCallable α β

/-- The ten wrapped primitives of `java25Grammar.ts` (`D`, `Seq`, `Ch`,
`Opt`, `OOM`, `ZOM`, `Stk`, `Cmt`, `T`, `NT`), each defined as
`(...items) => rr(Ctor, ...items)`. -/
def java25Wrappers (lib : RRLib α β) : List (β → Except JsError α) :=
  [fun a => rr lib.Diagram a, fun a => rr lib.Sequence a, fun a => rr lib.Choice a,
   fun a => rr lib.Optional a, fun a => rr lib.OneOrMore a, fun a => rr lib.ZeroOrMore a,
   fun a => rr lib.Stack a, fun a => rr lib.Comment a, fun a => rr lib.Terminal a,
   fun a => rr lib.NonTerminal a]

/-- The ten wrapped primitives of `javaGrammar.ts`, each defined as
`(...a) => callOrNew(RR.Ctor, ...a)`. -/
def javaGrammarWrappers (lib : RRLib α β) : List (β → Except JsError α) :=
  [fun a => callOrNew lib.Diagram a, fun a => callOrNew lib.Sequence a,
   fun a => callOrNew lib.Choice a, fun a => callOrNew lib.Optional a,
   fun a => callOrNew lib.OneOrMore a, fun a => callOrNew lib.ZeroOrMore a,
   fun a => callOrNew lib.Terminal a, fun a => callOrNew lib.NonTerminal a,
   fun a => callOrNew lib.Stack a, fun a => callOrNew lib.Comment a]
-- Generated transcription of the grammar registries and rule-name data.

def rules25c0 : List (String × (Unit → RRNode)) := [
  ("Identifier", fun _ => (.diagram [(.sequence [(.nonTerminal "IdentifierChars"), (.comment "but not ReservedKeyword, BooleanLiteral, or NullLiteral")])])),
  ("IdentifierChars", fun _ => (.diagram [(.sequence [(.nonTerminal "JavaLetter"), (.zeroOrMore (.nonTerminal "JavaLetterOrDigit"))])])),
  ("JavaLetter", fun _ => (.diagram [(.comment "any Unicode character that is a Java letter")])),
  ("JavaLetterOrDigit", fun _ => (.diagram [(.comment "any Unicode character that is a Java letter-or-digit")])),
  ("TypeIdentifier", fun _ => (.diagram [(.sequence [(.nonTerminal "Identifier"), (.comment "but not permits, record, sealed, var, or yield")])])),
  ("UnqualifiedMethodIdentifier", fun _ => (.diagram [(.sequence [(.nonTerminal "Identifier"), (.comment "but not yield")])])),
  ("Literal", fun _ => (.diagram [(.choice 0 [(.nonTerminal "IntegerLiteral"), (.nonTerminal "FloatingPointLiteral"), (.nonTerminal "BooleanLiteral"), (.nonTerminal "CharacterLiteral"), (.nonTerminal "StringLiteral"), (.nonTerminal "TextBlock"), (.nonTerminal "NullLiteral")])])),
  ("Type", fun _ => (.diagram [(.choice 0 [(.nonTerminal "PrimitiveType"), (.nonTerminal "ReferenceType")])])),
  ("PrimitiveType", fun _ => (.diagram [(.choice 0 [(.sequence [(.zeroOrMore (.nonTerminal "Annotation")), (.nonTerminal "NumericType")]), (.sequence [(.zeroOrMore (.nonTerminal "Annotation")), (.terminal "boolean")])])])),
  ("NumericType", fun _ => (.diagram [(.choice 0 [(.nonTerminal "IntegralType"), (.nonTerminal "FloatingPointType")])])),
  ("IntegralType", fun _ => (.diagram [(.choice 0 [(.terminal "byte"), (.terminal "short"), (.terminal "int"), (.terminal "long"), (.terminal "char")])])),
  ("FloatingPointType", fun _ => (.diagram [(.choice 0 [(.terminal "float"), (.terminal "double")])])),
  ("ReferenceType", fun _ => (.diagram [(.choice 0 [(.nonTerminal "ClassOrInterfaceType"), (.nonTerminal "TypeVariable"), (.nonTerminal "ArrayType")])])),
  ("ClassOrInterfaceType", fun _ => (.diagram [(.choice 0 [(.nonTerminal "ClassType"), (.nonTerminal "InterfaceType")])])),
  ("ClassType", fun _ => (.diagram [(.choice 0 [(.sequence [(.zeroOrMore (.nonTerminal "Annotation")), (.nonTerminal "TypeIdentifier"), (.optional (.nonTerminal "TypeArguments"))]), (.sequence [(.nonTerminal "PackageName"), (.terminal "."), (.zeroOrMore (.nonTerminal "Annotation")), (.nonTerminal "TypeIdentifier"), (.optional (.nonTerminal "TypeArguments"))]), (.sequence [(.nonTerminal "ClassOrInterfaceType"), (.terminal "."), (.zeroOrMore (.nonTerminal "Annotation")), (.nonTerminal "TypeIdentifier"), (.optional (.nonTerminal "TypeArguments"))])])])),
  ("InterfaceType", fun _ => (.diagram [(.nonTerminal "ClassType")])),
  ("TypeVariable", fun _ => (.diagram [(.sequence [(.zeroOrMore (.nonTerminal "Annotation")), (.nonTerminal "TypeIdentifier")])])),
  ("ArrayType", fun _ => (.diagram [(.choice 0 [(.sequence [(.nonTerminal "PrimitiveType"), (.nonTerminal "Dims")]), (.sequence [(.nonTerminal "ClassOrInterfaceType"), (.nonTerminal "Dims")]), (.sequence [(.nonTerminal "TypeVariable"), (.nonTerminal "Dims")])])])),
  ("Dims", fun _ => (.diagram [(.oneOrMore (.sequence [(.zeroOrMore (.nonTerminal "Annotation")), (.terminal "["), (.terminal "]")]))])),
  ("TypeParameter", fun _ => (.diagram [(.sequence [(.zeroOrMore (.nonTerminal "TypeParameterModifier")), (.nonTerminal "TypeIdentifier"), (.optional (.nonTerminal "TypeBound"))])])),
  ("TypeParameterModifier", fun _ => (.diagram [(.nonTerminal "Annotation")])),
  ("TypeBound", fun _ => (.diagram [(.choice 0 [(.sequence [(.terminal "extends"), (.nonTerminal "TypeVariable")]), (.sequence [(.terminal "extends"), (.nonTerminal "ClassOrInterfaceType"), (.zeroOrMore (.nonTerminal "AdditionalBound"))])])])),
  ("AdditionalBound", fun _ => (.diagram [(.sequence [(.terminal "&"), (.nonTerminal "InterfaceType")])])),
  ("TypeArguments", fun _ => (.diagram [(.sequence [(.terminal "<"), (.nonTerminal "TypeArgumentList"), (.terminal ">")])])),
  ("TypeArgumentList", fun _ => (.diagram [(.sequence [(.nonTerminal "TypeArgument"), (.zeroOrMore (.sequence [(.terminal ","), (.nonTerminal "TypeArgument")]))])])),
  ("TypeArgument", fun _ => (.diagram [(.choice 0 [(.nonTerminal "ReferenceType"), (.nonTerminal "Wildcard")])])),
  ("Wildcard", fun _ => (.diagram [(.sequence [(.zeroOrMore (.nonTerminal "Annotation")), (.terminal "?"), (.optional (.nonTerminal "WildcardBounds"))])])),
  ("WildcardBounds", fun _ => (.diagram [(.choice 0 [(.sequence [(.terminal "extends"), (.nonTerminal "ReferenceType")]), (.sequence [(.terminal "super"), (.nonTerminal "ReferenceType")])])])),
  ("ModuleName", fun _ => (.diagram [(.sequence [(.nonTerminal "Identifier"), (.zeroOrMore (.sequence [(.terminal "."), (.nonTerminal "Identifier")]))])])),
  ("PackageName", fun _ => (.diagram [(.sequence [(.nonTerminal "Identifier"), (.zeroOrMore (.sequence [(.terminal "."), (.nonTerminal "Identifier")]))])])),
  ("TypeName", fun _ => (.diagram [(.choice 0 [(.nonTerminal "TypeIdentifier"), (.sequence [(.nonTerminal "PackageOrTypeName"), (.terminal "."), (.nonTerminal "TypeIdentifier")])])])),
  ("ExpressionName", fun _ => (.diagram [(.choice 0 [(.nonTerminal "Identifier"), (.sequence [(.nonTerminal "AmbiguousName"), (.terminal "."), (.nonTerminal "Identifier")])])])),
  ("MethodName", fun _ => (.diagram [(.nonTerminal "UnqualifiedMethodIdentifier")])),
  ("PackageOrTypeName", fun _ => (.diagram [(.sequence [(.nonTerminal "Identifier"), (.zeroOrMore (.sequence [(.terminal "."), (.nonTerminal "Identifier")]))])])),
  ("AmbiguousName", fun _ => (.diagram [(.sequence [(.nonTerminal "Identifier"), (.zeroOrMore (.sequence [(.terminal "."), (.nonTerminal "Identifier")]))])])),
  ("CompilationUnit", fun _ => (.diagram [(.choice 0 [(.nonTerminal "OrdinaryCompilationUnit"), (.nonTerminal "CompactCompilationUnit"), (.nonTerminal "ModularCompilationUnit")])])),
  ("OrdinaryCompilationUnit", fun _ => (.diagram [(.sequence [(.optional (.nonTerminal "PackageDeclaration")), (.zeroOrMore (.nonTerminal "ImportDeclaration")), (.zeroOrMore (.nonTerminal "TopLevelClassOrInterfaceDeclaration"))])])),
  ("ModularCompilationUnit", fun _ => (.diagram [(.sequence [(.zeroOrMore (.nonTerminal "ImportDeclaration")), (.nonTerminal "ModuleDeclaration")])])),
  ("PackageDeclaration", fun _ => (.diagram [(.sequence [(.zeroOrMore (.nonTerminal "PackageModifier")), (.terminal "package"), (.nonTerminal "Identifier"), (.zeroOrMore (.sequence [(.terminal "."), (.nonTerminal "Identifier")])), (.terminal ";")])])),
  ("PackageModifier", fun _ => (.diagram [(.nonTerminal "Annotation")]))
]

def rules25c1 : List (String × (Unit → RRNode)) := [
  ("ImportDeclaration", fun _ => (.diagram [(.choice 0 [(.nonTerminal "SingleTypeImportDeclaration"), (.nonTerminal "TypeImportOnDemandDeclaration"), (.nonTerminal "SingleStaticImportDeclaration"), (.nonTerminal "StaticImportOnDemandDeclaration"), (.nonTerminal "SingleModuleImportDeclaration")])])),
  ("SingleTypeImportDeclaration", fun _ => (.diagram [(.sequence [(.terminal "import"), (.nonTerminal "TypeName"), (.terminal ";")])])),
  ("TypeImportOnDemandDeclaration", fun _ => (.diagram [(.sequence [(.terminal "import"), (.nonTerminal "PackageOrTypeName"), (.terminal "."), (.terminal "*"), (.terminal ";")])])),
  ("SingleStaticImportDeclaration", fun _ => (.diagram [(.sequence [(.terminal "import"), (.terminal "static"), (.nonTerminal "TypeName"), (.terminal "."), (.nonTerminal "Identifier"), (.terminal ";")])])),
  ("StaticImportOnDemandDeclaration", fun _ => (.diagram [(.sequence [(.terminal "import"), (.terminal "static"), (.nonTerminal "TypeName"), (.terminal "."), (.terminal "*"), (.terminal ";")])])),
  ("SingleModuleImportDeclaration", fun _ => (.diagram [(.sequence [(.terminal "import"), (.terminal "module"), (.nonTerminal "ModuleName"), (.terminal ";")])])),
  ("TopLevelClassOrInterfaceDeclaration", fun _ => (.diagram [(.choice 0 [(.nonTerminal "ClassDeclaration"), (.nonTerminal "InterfaceDeclaration"), (.terminal ";")])])),
  ("ModuleDeclaration", fun _ => (.diagram [(.sequence [(.zeroOrMore (.nonTerminal "Annotation")), (.optional (.terminal "open")), (.terminal "module"), (.nonTerminal "Identifier"), (.zeroOrMore (.sequence [(.terminal "."), (.nonTerminal "Identifier")])), (.terminal "\x7b"), (.zeroOrMore (.nonTerminal "ModuleDirective")), (.terminal "\x7d")])])),
  ("ModuleDirective", fun _ => (.diagram [(.choice 0 [(.sequence [(.terminal "requires"), (.zeroOrMore (.nonTerminal "RequiresModifier")), (.nonTerminal "ModuleName"), (.terminal ";")]), (.sequence [(.terminal "exports"), (.nonTerminal "PackageName"), (.optional (.sequence [(.terminal "to"), (.nonTerminal "ModuleName"), (.zeroOrMore (.sequence [(.terminal ","), (.nonTerminal "ModuleName")]))])), (.terminal ";")]), (.sequence [(.terminal "opens"), (.nonTerminal "PackageName"), (.optional (.sequence [(.terminal "to"), (.nonTerminal "ModuleName"), (.zeroOrMore (.sequence [(.terminal ","), (.nonTerminal "ModuleName")]))])), (.terminal ";")]), (.sequence [(.terminal "uses"), (.nonTerminal "TypeName"), (.terminal ";")]), (.sequence [(.terminal "provides"), (.nonTerminal "TypeName"), (.terminal "with"), (.nonTerminal "TypeName"), (.zeroOrMore (.sequence [(.terminal ","), (.nonTerminal "TypeName")])), (.terminal ";")])])])),
  ("RequiresModifier", fun _ => (.diagram [(.choice 0 [(.terminal "transitive"), (.terminal "static")])])),
  ("ClassDeclaration", fun _ => (.diagram [(.choice 0 [(.nonTerminal "NormalClassDeclaration"), (.nonTerminal "EnumDeclaration"), (.nonTerminal "RecordDeclaration")])])),
  ("NormalClassDeclaration", fun _ => (.diagram [(.sequence [(.zeroOrMore (.nonTerminal "ClassModifier")), (.terminal "class"), (.nonTerminal "TypeIdentifier"), (.optional (.nonTerminal "TypeParameters")), (.optional (.nonTerminal "ClassExtends")), (.optional (.nonTerminal "ClassImplements")), (.optional (.nonTerminal "ClassPermits")), (.nonTerminal "ClassBody")])])),
  ("ClassModifier", fun _ => (.diagram [(.choice 0 [(.nonTerminal "Annotation"), (.terminal "public"), (.terminal "protected"), (.terminal "private"), (.terminal "abstract"), (.terminal "static"), (.terminal "final"), (.terminal "sealed"), (.terminal "non-sealed"), (.terminal "strictfp")])])),
  ("TypeParameters", fun _ => (.diagram [(.sequence [(.terminal "<"), (.nonTerminal "TypeParameterList"), (.terminal ">")])])),
  ("TypeParameterList", fun _ => (.diagram [(.sequence [(.nonTerminal "TypeParameter"), (.zeroOrMore (.sequence [(.terminal ","), (.nonTerminal "TypeParameter")]))])])),
  ("ClassExtends", fun _ => (.diagram [(.sequence [(.terminal "extends"), (.nonTerminal "ClassType")])])),
  ("ClassImplements", fun _ => (.diagram [(.sequence [(.terminal "implements"), (.nonTerminal "InterfaceTypeList")])])),
  ("InterfaceTypeList", fun _ => (.diagram [(.sequence [(.nonTerminal "InterfaceType"), (.zeroOrMore (.sequence [(.terminal ","), (.nonTerminal "InterfaceType")]))])])),
  ("ClassPermits", fun _ => (.diagram [(.sequence [(.terminal "permits"), (.nonTerminal "TypeName"), (.zeroOrMore (.sequence [(.terminal ","), (.nonTerminal "TypeName")]))])])),
  ("ClassBody", fun _ => (.diagram [(.sequence [(.terminal "\x7b"), (.zeroOrMore (.nonTerminal "ClassBodyDeclaration")), (.terminal "\x7d")])])),
  ("ClassBodyDeclaration", fun _ => (.diagram [(.choice 0 [(.nonTerminal "ClassMemberDeclaration"), (.nonTerminal "InstanceInitializer"), (.nonTerminal "StaticInitializer"), (.nonTerminal "ConstructorDeclaration")])])),
  ("ClassMemberDeclaration", fun _ => (.diagram [(.choice 0 [(.nonTerminal "FieldDeclaration"), (.nonTerminal "MethodDeclaration"), (.nonTerminal "ClassDeclaration"), (.nonTerminal "InterfaceDeclaration"), (.terminal ";")])])),
  ("FieldDeclaration", fun _ => (.diagram [(.sequence [(.zeroOrMore (.nonTerminal "FieldModifier")), (.nonTerminal "UnannType"), (.nonTerminal "VariableDeclaratorList"), (.terminal ";")])])),
  ("FieldModifier", fun _ => (.diagram [(.choice 0 [(.nonTerminal "Annotation"), (.terminal "public"), (.terminal "protected"), (.terminal "private"), (.terminal "static"), (.terminal "final"), (.terminal "transient"), (.terminal "volatile")])])),
  ("VariableDeclaratorList", fun _ => (.diagram [(.sequence [(.nonTerminal "VariableDeclarator"), (.zeroOrMore (.sequence [(.terminal ","), (.nonTerminal "VariableDeclarator")]))])])),
  ("VariableDeclarator", fun _ => (.diagram [(.sequence [(.nonTerminal "VariableDeclaratorId"), (.optional (.sequence [(.terminal "="), (.nonTerminal "VariableInitializer")]))])])),
  ("VariableDeclaratorId", fun _ => (.diagram [(.choice 0 [(.sequence [(.nonTerminal "Identifier"), (.optional (.nonTerminal "Dims"))]), (.terminal "_")])])),
  ("VariableInitializer", fun _ => (.diagram [(.choice 0 [(.nonTerminal "Expression"), (.nonTerminal "ArrayInitializer")])])),
  ("UnannType", fun _ => (.diagram [(.choice 0 [(.nonTerminal "UnannPrimitiveType"), (.nonTerminal "UnannReferenceType")])])),
  ("UnannPrimitiveType", fun _ => (.diagram [(.choice 0 [(.nonTerminal "NumericType"), (.terminal "boolean")])])),
  ("UnannReferenceType", fun _ => (.diagram [(.choice 0 [(.nonTerminal "UnannClassOrInterfaceType"), (.nonTerminal "UnannTypeVariable"), (.nonTerminal "UnannArrayType")])])),
  ("UnannClassOrInterfaceType", fun _ => (.diagram [(.choice 0 [(.nonTerminal "UnannClassType"), (.nonTerminal "UnannInterfaceType")])])),
  ("UnannClassType", fun _ => (.diagram [(.choice 0 [(.sequence [(.nonTerminal "TypeIdentifier"), (.optional (.nonTerminal "TypeArguments"))]), (.sequence [(.nonTerminal "PackageName"), (.terminal "."), (.zeroOrMore (.nonTerminal "Annotation")), (.nonTerminal "TypeIdentifier"), (.optional (.nonTerminal "TypeArguments"))]), (.sequence [(.nonTerminal "UnannClassOrInterfaceType"), (.terminal "."), (.zeroOrMore (.nonTerminal "Annotation")), (.nonTerminal "TypeIdentifier"), (.optional (.nonTerminal "TypeArguments"))])])])),
  ("UnannInterfaceType", fun _ => (.diagram [(.nonTerminal "UnannClassType")])),
  ("UnannTypeVariable", fun _ => (.diagram [(.nonTerminal "TypeIdentifier")])),
  ("UnannArrayType", fun _ => (.diagram [(.choice 0 [(.sequence [(.nonTerminal "UnannPrimitiveType"), (.nonTerminal "Dims")]), (.sequence [(.nonTerminal "UnannClassOrInterfaceType"), (.nonTerminal "Dims")]), (.sequence [(.nonTerminal "UnannTypeVariable"), (.nonTerminal "Dims")])])])),
  ("MethodDeclaration", fun _ => (.diagram [(.sequence [(.zeroOrMore (.nonTerminal "MethodModifier")), (.nonTerminal "MethodHeader"), (.nonTerminal "MethodBody")])])),
  ("MethodModifier", fun _ => (.diagram [(.choice 0 [(.nonTerminal "Annotation"), (.terminal "public"), (.terminal "protected"), (.terminal "private"), (.terminal "abstract"), (.terminal "static"), (.terminal "final"), (.terminal "synchronized"), (.terminal "native"), (.terminal "strictfp")])])),
  ("MethodHeader", fun _ => (.diagram [(.choice 0 [(.sequence [(.nonTerminal "Result"), (.nonTerminal "MethodDeclarator"), (.optional (.nonTerminal "Throws"))]), (.sequence [(.nonTerminal "TypeParameters"), (.zeroOrMore (.nonTerminal "Annotation")), (.nonTerminal "Result"), (.nonTerminal "MethodDeclarator"), (.optional (.nonTerminal "Throws"))])])])),
  ("Result", fun _ => (.diagram [(.choice 0 [(.nonTerminal "UnannType"), (.terminal "void")])]))
]

def rules25c2 : List (String × (Unit → RRNode)) := [
  ("MethodDeclarator", fun _ => (.diagram [(.sequence [(.nonTerminal "Identifier"), (.terminal "("), (.optional (.sequence [(.nonTerminal "ReceiverParameter"), (.terminal ",")])), (.optional (.nonTerminal "FormalParameterList")), (.terminal ")"), (.optional (.nonTerminal "Dims"))])])),
  ("ReceiverParameter", fun _ => (.diagram [(.sequence [(.zeroOrMore (.nonTerminal "Annotation")), (.nonTerminal "UnannType"), (.optional (.sequence [(.nonTerminal "Identifier"), (.terminal ".")])), (.terminal "this")])])),
  ("FormalParameterList", fun _ => (.diagram [(.sequence [(.nonTerminal "FormalParameter"), (.zeroOrMore (.sequence [(.terminal ","), (.nonTerminal "FormalParameter")]))])])),
  ("FormalParameter", fun _ => (.diagram [(.choice 0 [(.sequence [(.zeroOrMore (.nonTerminal "VariableModifier")), (.nonTerminal "UnannType"), (.nonTerminal "VariableDeclaratorId")]), (.nonTerminal "VariableArityParameter")])])),
  ("VariableArityParameter", fun _ => (.diagram [(.sequence [(.zeroOrMore (.nonTerminal "VariableModifier")), (.nonTerminal "UnannType"), (.zeroOrMore (.nonTerminal "Annotation")), (.terminal "..."), (.nonTerminal "Identifier")])])),
  ("VariableModifier", fun _ => (.diagram [(.choice 0 [(.nonTerminal "Annotation"), (.terminal "final")])])),
  ("Throws", fun _ => (.diagram [(.sequence [(.terminal "throws"), (.nonTerminal "ExceptionTypeList")])])),
  ("ExceptionTypeList", fun _ => (.diagram [(.sequence [(.nonTerminal "ExceptionType"), (.zeroOrMore (.sequence [(.terminal ","), (.nonTerminal "ExceptionType")]))])])),
  ("ExceptionType", fun _ => (.diagram [(.choice 0 [(.nonTerminal "ClassType"), (.nonTerminal "TypeVariable")])])),
  ("MethodBody", fun _ => (.diagram [(.choice 0 [(.nonTerminal "Block"), (.terminal ";")])])),
  ("InstanceInitializer", fun _ => (.diagram [(.nonTerminal "Block")])),
  ("StaticInitializer", fun _ => (.diagram [(.sequence [(.terminal "static"), (.nonTerminal "Block")])])),
  ("ConstructorDeclaration", fun _ => (.diagram [(.sequence [(.zeroOrMore (.nonTerminal "ConstructorModifier")), (.nonTerminal "ConstructorDeclarator"), (.optional (.nonTerminal "Throws")), (.nonTerminal "ConstructorBody")])])),
  ("ConstructorModifier", fun _ => (.diagram [(.choice 0 [(.nonTerminal "Annotation"), (.terminal "public"), (.terminal "protected"), (.terminal "private")])])),
  ("ConstructorDeclarator", fun _ => (.diagram [(.sequence [(.optional (.nonTerminal "TypeParameters")), (.nonTerminal "SimpleTypeName"), (.terminal "("), (.optional (.sequence [(.nonTerminal "ReceiverParameter"), (.terminal ",")])), (.optional (.nonTerminal "FormalParameterList")), (.terminal ")")])])),
  ("SimpleTypeName", fun _ => (.diagram [(.nonTerminal "TypeIdentifier")])),
  ("ConstructorBody", fun _ => (.diagram [(.choice 0 [(.sequence [(.terminal "\x7b"), (.optional (.nonTerminal "BlockStatements")), (.nonTerminal "ConstructorInvocation"), (.optional (.nonTerminal "BlockStatements")), (.terminal "\x7d")]), (.sequence [(.terminal "\x7b"), (.optional (.nonTerminal "BlockStatements")), (.terminal "\x7d")])])])),
  ("ConstructorInvocation", fun _ => (.diagram [(.choice 0 [(.sequence [(.optional (.nonTerminal "TypeArguments")), (.terminal "this"), (.terminal "("), (.optional (.nonTerminal "ArgumentList")), (.terminal ")"), (.terminal ";")]), (.sequence [(.optional (.nonTerminal "TypeArguments")), (.terminal "super"), (.terminal "("), (.optional (.nonTerminal "ArgumentList")), (.terminal ")"), (.terminal ";")]), (.sequence [(.nonTerminal "ExpressionName"), (.terminal "."), (.optional (.nonTerminal "TypeArguments")), (.terminal "super"), (.terminal "("), (.optional (.nonTerminal "ArgumentList")), (.terminal ")"), (.terminal ";")]), (.sequence [(.nonTerminal "Primary"), (.terminal "."), (.optional (.nonTerminal "TypeArguments")), (.terminal "super"), (.terminal "("), (.optional (.nonTerminal "ArgumentList")), (.terminal ")"), (.terminal ";")])])])),
  ("EnumDeclaration", fun _ => (.diagram [(.sequence [(.zeroOrMore (.nonTerminal "ClassModifier")), (.terminal "enum"), (.nonTerminal "TypeIdentifier"), (.optional (.nonTerminal "ClassImplements")), (.nonTerminal "EnumBody")])])),
  ("EnumBody", fun _ => (.diagram [(.sequence [(.terminal "\x7b"), (.optional (.nonTerminal "EnumConstantList")), (.optional (.terminal ",")), (.optional (.nonTerminal "EnumBodyDeclarations")), (.terminal "\x7d")])])),
  ("EnumConstantList", fun _ => (.diagram [(.sequence [(.nonTerminal "EnumConstant"), (.zeroOrMore (.sequence [(.terminal ","), (.nonTerminal "EnumConstant")]))])])),
  ("EnumConstant", fun _ => (.diagram [(.sequence [(.zeroOrMore (.nonTerminal "EnumConstantModifier")), (.nonTerminal "Identifier"), (.optional (.sequence [(.terminal "("), (.optional (.nonTerminal "ArgumentList")), (.terminal ")")])), (.optional (.nonTerminal "ClassBody"))])])),
  ("EnumConstantModifier", fun _ => (.diagram [(.nonTerminal "Annotation")])),
  ("EnumBodyDeclarations", fun _ => (.diagram [(.sequence [(.terminal ";"), (.zeroOrMore (.nonTerminal "ClassBodyDeclaration"))])])),
  ("RecordDeclaration", fun _ => (.diagram [(.sequence [(.zeroOrMore (.nonTerminal "ClassModifier")), (.terminal "record"), (.nonTerminal "TypeIdentifier"), (.optional (.nonTerminal "TypeParameters")), (.nonTerminal "RecordHeader"), (.optional (.nonTerminal "ClassImplements")), (.nonTerminal "RecordBody")])])),
  ("RecordHeader", fun _ => (.diagram [(.sequence [(.terminal "("), (.optional (.nonTerminal "RecordComponentList")), (.terminal ")")])])),
  ("RecordComponentList", fun _ => (.diagram [(.sequence [(.nonTerminal "RecordComponent"), (.zeroOrMore (.sequence [(.terminal ","), (.nonTerminal "RecordComponent")]))])])),
  ("RecordComponent", fun _ => (.diagram [(.choice 0 [(.sequence [(.zeroOrMore (.nonTerminal "RecordComponentModifier")), (.nonTerminal "UnannType"), (.nonTerminal "Identifier")]), (.nonTerminal "VariableArityRecordComponent")])])),
  ("VariableArityRecordComponent", fun _ => (.diagram [(.sequence [(.zeroOrMore (.nonTerminal "RecordComponentModifier")), (.nonTerminal "UnannType"), (.zeroOrMore (.nonTerminal "Annotation")), (.terminal "..."), (.nonTerminal "Identifier")])])),
  ("RecordComponentModifier", fun _ => (.diagram [(.nonTerminal "Annotation")])),
  ("RecordBody", fun _ => (.diagram [(.sequence [(.terminal "\x7b"), (.zeroOrMore (.nonTerminal "RecordBodyDeclaration")), (.terminal "\x7d")])])),
  ("RecordBodyDeclaration", fun _ => (.diagram [(.choice 0 [(.nonTerminal "ClassBodyDeclaration"), (.nonTerminal "CompactConstructorDeclaration")])])),
  ("CompactConstructorDeclaration", fun _ => (.diagram [(.sequence [(.zeroOrMore (.nonTerminal "ConstructorModifier")), (.nonTerminal "SimpleTypeName"), (.nonTerminal "ConstructorBody")])])),
  ("InterfaceDeclaration", fun _ => (.diagram [(.choice 0 [(.nonTerminal "NormalInterfaceDeclaration"), (.nonTerminal "AnnotationInterfaceDeclaration")])])),
  ("NormalInterfaceDeclaration", fun _ => (.diagram [(.sequence [(.zeroOrMore (.nonTerminal "InterfaceModifier")), (.terminal "interface"), (.nonTerminal "TypeIdentifier"), (.optional (.nonTerminal "TypeParameters")), (.optional (.nonTerminal "InterfaceExtends")), (.optional (.nonTerminal "InterfacePermits")), (.nonTerminal "InterfaceBody")])])),
  ("InterfaceModifier", fun _ => (.diagram [(.choice 0 [(.nonTerminal "Annotation"), (.terminal "public"), (.terminal "protected"), (.terminal "private"), (.terminal "abstract"), (.terminal "static"), (.terminal "sealed"), (.terminal "non-sealed"), (.terminal "strictfp")])])),
  ("InterfaceExtends", fun _ => (.diagram [(.sequence [(.terminal "extends"), (.nonTerminal "InterfaceTypeList")])])),
  ("InterfacePermits", fun _ => (.diagram [(.sequence [(.terminal "permits"), (.nonTerminal "TypeName"), (.zeroOrMore (.sequence [(.terminal ","), (.nonTerminal "TypeName")]))])])),
  ("InterfaceBody", fun _ => (.diagram [(.sequence [(.terminal "\x7b"), (.zeroOrMore (.nonTerminal "InterfaceMemberDeclaration")), (.terminal "\x7d")])])),
  ("InterfaceMemberDeclaration", fun _ => (.diagram [(.choice 0 [(.nonTerminal "ConstantDeclaration"), (.nonTerminal "InterfaceMethodDeclaration"), (.nonTerminal "ClassDeclaration"), (.nonTerminal "InterfaceDeclaration"), (.terminal ";")])]))
]

def rules25c3 : List (String × (Unit → RRNode)) := [
  ("ConstantDeclaration", fun _ => (.diagram [(.sequence [(.zeroOrMore (.nonTerminal "ConstantModifier")), (.nonTerminal "UnannType"), (.nonTerminal "VariableDeclaratorList"), (.terminal ";")])])),
  ("ConstantModifier", fun _ => (.diagram [(.choice 0 [(.nonTerminal "Annotation"), (.terminal "public"), (.terminal "static"), (.terminal "final")])])),
  ("InterfaceMethodDeclaration", fun _ => (.diagram [(.sequence [(.zeroOrMore (.nonTerminal "InterfaceMethodModifier")), (.nonTerminal "MethodHeader"), (.nonTerminal "MethodBody")])])),
  ("InterfaceMethodModifier", fun _ => (.diagram [(.choice 0 [(.nonTerminal "Annotation"), (.terminal "public"), (.terminal "private"), (.terminal "abstract"), (.terminal "default"), (.terminal "static"), (.terminal "strictfp")])])),
  ("AnnotationInterfaceDeclaration", fun _ => (.diagram [(.sequence [(.zeroOrMore (.nonTerminal "InterfaceModifier")), (.terminal "@"), (.terminal "interface"), (.nonTerminal "TypeIdentifier"), (.nonTerminal "AnnotationInterfaceBody")])])),
  ("AnnotationInterfaceBody", fun _ => (.diagram [(.sequence [(.terminal "\x7b"), (.zeroOrMore (.nonTerminal "AnnotationInterfaceMemberDeclaration")), (.terminal "\x7d")])])),
  ("AnnotationInterfaceMemberDeclaration", fun _ => (.diagram [(.choice 0 [(.nonTerminal "AnnotationInterfaceElementDeclaration"), (.nonTerminal "ConstantDeclaration"), (.nonTerminal "ClassDeclaration"), (.nonTerminal "InterfaceDeclaration"), (.terminal ";")])])),
  ("AnnotationInterfaceElementDeclaration", fun _ => (.diagram [(.sequence [(.zeroOrMore (.nonTerminal "AnnotationInterfaceElementModifier")), (.nonTerminal "UnannType"), (.nonTerminal "Identifier"), (.terminal "("), (.terminal ")"), (.optional (.nonTerminal "Dims")), (.optional (.nonTerminal "DefaultValue")), (.terminal ";")])])),
  ("AnnotationInterfaceElementModifier", fun _ => (.diagram [(.choice 0 [(.nonTerminal "Annotation"), (.terminal "public"), (.terminal "abstract")])])),
  ("DefaultValue", fun _ => (.diagram [(.sequence [(.terminal "default"), (.nonTerminal "ElementValue")])])),
  ("Annotation", fun _ => (.diagram [(.choice 0 [(.nonTerminal "NormalAnnotation"), (.nonTerminal "MarkerAnnotation"), (.nonTerminal "SingleElementAnnotation")])])),
  ("NormalAnnotation", fun _ => (.diagram [(.sequence [(.terminal "@"), (.nonTerminal "TypeName"), (.terminal "("), (.optional (.nonTerminal "ElementValuePairList")), (.terminal ")")])])),
  ("ElementValuePairList", fun _ => (.diagram [(.sequence [(.nonTerminal "ElementValuePair"), (.zeroOrMore (.sequence [(.terminal ","), (.nonTerminal "ElementValuePair")]))])])),
  ("ElementValuePair", fun _ => (.diagram [(.sequence [(.nonTerminal "Identifier"), (.terminal "="), (.nonTerminal "ElementValue")])])),
  ("ElementValue", fun _ => (.diagram [(.choice 0 [(.nonTerminal "ConditionalExpression"), (.nonTerminal "ElementValueArrayInitializer"), (.nonTerminal "Annotation")])])),
  ("ElementValueArrayInitializer", fun _ => (.diagram [(.sequence [(.terminal "\x7b"), (.optional (.nonTerminal "ElementValueList")), (.optional (.terminal ",")), (.terminal "\x7d")])])),
  ("ElementValueList", fun _ => (.diagram [(.sequence [(.nonTerminal "ElementValue"), (.zeroOrMore (.sequence [(.terminal ","), (.nonTerminal "ElementValue")]))])])),
  ("MarkerAnnotation", fun _ => (.diagram [(.sequence [(.terminal "@"), (.nonTerminal "TypeName")])])),
  ("SingleElementAnnotation", fun _ => (.diagram [(.sequence [(.terminal "@"), (.nonTerminal "TypeName"), (.terminal "("), (.nonTerminal "ElementValue"), (.terminal ")")])])),
  ("ArrayInitializer", fun _ => (.diagram [(.sequence [(.terminal "\x7b"), (.optional (.nonTerminal "VariableInitializerList")), (.optional (.terminal ",")), (.terminal "\x7d")])])),
  ("VariableInitializerList", fun _ => (.diagram [(.sequence [(.nonTerminal "VariableInitializer"), (.zeroOrMore (.sequence [(.terminal ","), (.nonTerminal "VariableInitializer")]))])])),
  ("Block", fun _ => (.diagram [(.sequence [(.terminal "\x7b"), (.optional (.nonTerminal "BlockStatements")), (.terminal "\x7d")])])),
  ("BlockStatements", fun _ => (.diagram [(.oneOrMore (.nonTerminal "BlockStatement"))])),
  ("BlockStatement", fun _ => (.diagram [(.choice 0 [(.nonTerminal "LocalClassOrInterfaceDeclaration"), (.nonTerminal "LocalVariableDeclarationStatement"), (.nonTerminal "Statement")])])),
  ("LocalClassOrInterfaceDeclaration", fun _ => (.diagram [(.choice 0 [(.nonTerminal "ClassDeclaration"), (.nonTerminal "NormalInterfaceDeclaration")])])),
  ("LocalVariableDeclarationStatement", fun _ => (.diagram [(.sequence [(.nonTerminal "LocalVariableDeclaration"), (.terminal ";")])])),
  ("LocalVariableDeclaration", fun _ => (.diagram [(.sequence [(.zeroOrMore (.nonTerminal "VariableModifier")), (.nonTerminal "LocalVariableType"), (.nonTerminal "VariableDeclaratorList")])])),
  ("LocalVariableType", fun _ => (.diagram [(.choice 0 [(.nonTerminal "UnannType"), (.terminal "var")])])),
  ("Statement", fun _ => (.diagram [(.choice 0 [(.nonTerminal "StatementWithoutTrailingSubstatement"), (.nonTerminal "LabeledStatement"), (.nonTerminal "IfThenStatement"), (.nonTerminal "IfThenElseStatement"), (.nonTerminal "WhileStatement"), (.nonTerminal "ForStatement")])])),
  ("StatementNoShortIf", fun _ => (.diagram [(.choice 0 [(.nonTerminal "StatementWithoutTrailingSubstatement"), (.nonTerminal "LabeledStatementNoShortIf"), (.nonTerminal "IfThenElseStatementNoShortIf"), (.nonTerminal "WhileStatementNoShortIf"), (.nonTerminal "ForStatementNoShortIf")])])),
  ("StatementWithoutTrailingSubstatement", fun _ => (.diagram [(.choice 0 [(.nonTerminal "Block"), (.nonTerminal "EmptyStatement"), (.nonTerminal "ExpressionStatement"), (.nonTerminal "AssertStatement"), (.nonTerminal "SwitchStatement"), (.nonTerminal "DoStatement"), (.nonTerminal "BreakStatement"), (.nonTerminal "ContinueStatement"), (.nonTerminal "ReturnStatement"), (.nonTerminal "SynchronizedStatement"), (.nonTerminal "ThrowStatement"), (.nonTerminal "TryStatement"), (.nonTerminal "YieldStatement")])])),
  ("EmptyStatement", fun _ => (.diagram [(.terminal ";")])),
  ("LabeledStatement", fun _ => (.diagram [(.sequence [(.nonTerminal "Identifier"), (.terminal ":"), (.nonTerminal "Statement")])])),
  ("LabeledStatementNoShortIf", fun _ => (.diagram [(.sequence [(.nonTerminal "Identifier"), (.terminal ":"), (.nonTerminal "StatementNoShortIf")])])),
  ("ExpressionStatement", fun _ => (.diagram [(.sequence [(.nonTerminal "StatementExpression"), (.terminal ";")])])),
  ("StatementExpression", fun _ => (.diagram [(.choice 0 [(.nonTerminal "Assignment"), (.nonTerminal "PreIncrementExpression"), (.nonTerminal "PreDecrementExpression"), (.nonTerminal "PostIncrementExpression"), (.nonTerminal "PostDecrementExpression"), (.nonTerminal "MethodInvocation"), (.nonTerminal "ClassInstanceCreationExpression")])])),
  ("IfThenStatement", fun _ => (.diagram [(.sequence [(.terminal "if"), (.terminal "("), (.nonTerminal "Expression"), (.terminal ")"), (.nonTerminal "Statement")])])),
  ("IfThenElseStatement", fun _ => (.diagram [(.sequence [(.terminal "if"), (.terminal "("), (.nonTerminal "Expression"), (.terminal ")"), (.nonTerminal "StatementNoShortIf"), (.terminal "else"), (.nonTerminal "Statement")])])),
  ("IfThenElseStatementNoShortIf", fun _ => (.diagram [(.sequence [(.terminal "if"), (.terminal "("), (.nonTerminal "Expression"), (.terminal ")"), (.nonTerminal "StatementNoShortIf"), (.terminal "else"), (.nonTerminal "StatementNoShortIf")])])),
  ("AssertStatement", fun _ => (.diagram [(.choice 0 [(.sequence [(.terminal "assert"), (.nonTerminal "Expression"), (.terminal ";")]), (.sequence [(.terminal "assert"), (.nonTerminal "Expression"), (.terminal ":"), (.nonTerminal "Expression"), (.terminal ";")])])]))
]

def rules25c4 : List (String × (Unit → RRNode)) := [
  ("SwitchStatement", fun _ => (.diagram [(.sequence [(.terminal "switch"), (.terminal "("), (.nonTerminal "Expression"), (.terminal ")"), (.nonTerminal "SwitchBlock")])])),
  ("SwitchBlock", fun _ => (.diagram [(.choice 0 [(.sequence [(.terminal "\x7b"), (.oneOrMore (.nonTerminal "SwitchRule")), (.terminal "\x7d")]), (.sequence [(.terminal "\x7b"), (.zeroOrMore (.nonTerminal "SwitchBlockStatementGroup")), (.zeroOrMore (.sequence [(.nonTerminal "SwitchLabel"), (.terminal ":")])), (.terminal "\x7d")])])])),
  ("SwitchRule", fun _ => (.diagram [(.choice 0 [(.sequence [(.nonTerminal "SwitchLabel"), (.terminal "->"), (.nonTerminal "Expression"), (.terminal ";")]), (.sequence [(.nonTerminal "SwitchLabel"), (.terminal "->"), (.nonTerminal "Block")]), (.sequence [(.nonTerminal "SwitchLabel"), (.terminal "->"), (.nonTerminal "ThrowStatement")])])])),
  ("SwitchBlockStatementGroup", fun _ => (.diagram [(.sequence [(.nonTerminal "SwitchLabel"), (.terminal ":"), (.zeroOrMore (.sequence [(.nonTerminal "SwitchLabel"), (.terminal ":")])), (.nonTerminal "BlockStatements")])])),
  ("SwitchLabel", fun _ => (.diagram [(.choice 0 [(.sequence [(.terminal "case"), (.nonTerminal "CaseConstant"), (.zeroOrMore (.sequence [(.terminal ","), (.nonTerminal "CaseConstant")]))]), (.sequence [(.terminal "case"), (.terminal "null"), (.optional (.sequence [(.terminal ","), (.terminal "default")]))]), (.sequence [(.terminal "case"), (.nonTerminal "CasePattern"), (.zeroOrMore (.sequence [(.terminal ","), (.nonTerminal "CasePattern")])), (.optional (.nonTerminal "Guard"))]), (.terminal "default")])])),
  ("CaseConstant", fun _ => (.diagram [(.nonTerminal "ConditionalExpression")])),
  ("CasePattern", fun _ => (.diagram [(.nonTerminal "Pattern")])),
  ("Guard", fun _ => (.diagram [(.sequence [(.terminal "when"), (.nonTerminal "Expression")])])),
  ("WhileStatement", fun _ => (.diagram [(.sequence [(.terminal "while"), (.terminal "("), (.nonTerminal "Expression"), (.terminal ")"), (.nonTerminal "Statement")])])),
  ("WhileStatementNoShortIf", fun _ => (.diagram [(.sequence [(.terminal "while"), (.terminal "("), (.nonTerminal "Expression"), (.terminal ")"), (.nonTerminal "StatementNoShortIf")])])),
  ("DoStatement", fun _ => (.diagram [(.sequence [(.terminal "do"), (.nonTerminal "Statement"), (.terminal "while"), (.terminal "("), (.nonTerminal "Expression"), (.terminal ")"), (.terminal ";")])])),
  ("ForStatement", fun _ => (.diagram [(.choice 0 [(.nonTerminal "BasicForStatement"), (.nonTerminal "EnhancedForStatement")])])),
  ("ForStatementNoShortIf", fun _ => (.diagram [(.choice 0 [(.nonTerminal "BasicForStatementNoShortIf"), (.nonTerminal "EnhancedForStatementNoShortIf")])])),
  ("BasicForStatement", fun _ => (.diagram [(.sequence [(.terminal "for"), (.terminal "("), (.optional (.nonTerminal "ForInit")), (.terminal ";"), (.optional (.nonTerminal "Expression")), (.terminal ";"), (.optional (.nonTerminal "ForUpdate")), (.terminal ")"), (.nonTerminal "Statement")])])),
  ("BasicForStatementNoShortIf", fun _ => (.diagram [(.sequence [(.terminal "for"), (.terminal "("), (.optional (.nonTerminal "ForInit")), (.terminal ";"), (.optional (.nonTerminal "Expression")), (.terminal ";"), (.optional (.nonTerminal "ForUpdate")), (.terminal ")"), (.nonTerminal "StatementNoShortIf")])])),
  ("ForInit", fun _ => (.diagram [(.choice 0 [(.nonTerminal "StatementExpressionList"), (.nonTerminal "LocalVariableDeclaration")])])),
  ("ForUpdate", fun _ => (.diagram [(.nonTerminal "StatementExpressionList")])),
  ("StatementExpressionList", fun _ => (.diagram [(.sequence [(.nonTerminal "StatementExpression"), (.zeroOrMore (.sequence [(.terminal ","), (.nonTerminal "StatementExpression")]))])])),
  ("EnhancedForStatement", fun _ => (.diagram [(.sequence [(.terminal "for"), (.terminal "("), (.nonTerminal "LocalVariableDeclaration"), (.terminal ":"), (.nonTerminal "Expression"), (.terminal ")"), (.nonTerminal "Statement")])])),
  ("EnhancedForStatementNoShortIf", fun _ => (.diagram [(.sequence [(.terminal "for"), (.terminal "("), (.nonTerminal "LocalVariableDeclaration"), (.terminal ":"), (.nonTerminal "Expression"), (.terminal ")"), (.nonTerminal "StatementNoShortIf")])])),
  ("BreakStatement", fun _ => (.diagram [(.sequence [(.terminal "break"), (.optional (.nonTerminal "Identifier")), (.terminal ";")])])),
  ("YieldStatement", fun _ => (.diagram [(.sequence [(.terminal "yield"), (.nonTerminal "Expression"), (.terminal ";")])])),
  ("ContinueStatement", fun _ => (.diagram [(.sequence [(.terminal "continue"), (.optional (.nonTerminal "Identifier")), (.terminal ";")])])),
  ("ReturnStatement", fun _ => (.diagram [(.sequence [(.terminal "return"), (.optional (.nonTerminal "Expression")), (.terminal ";")])])),
  ("ThrowStatement", fun _ => (.diagram [(.sequence [(.terminal "throw"), (.nonTerminal "Expression"), (.terminal ";")])])),
  ("SynchronizedStatement", fun _ => (.diagram [(.sequence [(.terminal "synchronized"), (.terminal "("), (.nonTerminal "Expression"), (.terminal ")"), (.nonTerminal "Block")])])),
  ("TryStatement", fun _ => (.diagram [(.choice 0 [(.sequence [(.terminal "try"), (.nonTerminal "Block"), (.nonTerminal "Catches")]), (.sequence [(.terminal "try"), (.nonTerminal "Block"), (.optional (.nonTerminal "Catches")), (.nonTerminal "Finally")]), (.nonTerminal "TryWithResourcesStatement")])])),
  ("Catches", fun _ => (.diagram [(.oneOrMore (.nonTerminal "CatchClause"))])),
  ("CatchClause", fun _ => (.diagram [(.sequence [(.terminal "catch"), (.terminal "("), (.nonTerminal "CatchFormalParameter"), (.terminal ")"), (.nonTerminal "Block")])])),
  ("CatchFormalParameter", fun _ => (.diagram [(.sequence [(.zeroOrMore (.nonTerminal "VariableModifier")), (.nonTerminal "CatchType"), (.nonTerminal "VariableDeclaratorId")])])),
  ("CatchType", fun _ => (.diagram [(.sequence [(.nonTerminal "UnannClassType"), (.zeroOrMore (.sequence [(.terminal "|"), (.nonTerminal "ClassType")]))])])),
  ("Finally", fun _ => (.diagram [(.sequence [(.terminal "finally"), (.nonTerminal "Block")])])),
  ("TryWithResourcesStatement", fun _ => (.diagram [(.sequence [(.terminal "try"), (.nonTerminal "ResourceSpecification"), (.nonTerminal "Block"), (.optional (.nonTerminal "Catches")), (.optional (.nonTerminal "Finally"))])])),
  ("ResourceSpecification", fun _ => (.diagram [(.sequence [(.terminal "("), (.nonTerminal "ResourceList"), (.optional (.terminal ";")), (.terminal ")")])])),
  ("ResourceList", fun _ => (.diagram [(.sequence [(.nonTerminal "Resource"), (.zeroOrMore (.sequence [(.terminal ";"), (.nonTerminal "Resource")]))])])),
  ("Resource", fun _ => (.diagram [(.choice 0 [(.nonTerminal "LocalVariableDeclaration"), (.nonTerminal "VariableAccess")])])),
  ("VariableAccess", fun _ => (.diagram [(.choice 0 [(.nonTerminal "ExpressionName"), (.nonTerminal "FieldAccess")])])),
  ("Pattern", fun _ => (.diagram [(.choice 0 [(.nonTerminal "TypePattern"), (.nonTerminal "RecordPattern")])])),
  ("TypePattern", fun _ => (.diagram [(.nonTerminal "LocalVariableDeclaration")])),
  ("RecordPattern", fun _ => (.diagram [(.sequence [(.nonTerminal "ReferenceType"), (.terminal "("), (.optional (.nonTerminal "ComponentPatternList")), (.terminal ")")])]))
]

def rules25c5 : List (String × (Unit → RRNode)) := [
  ("ComponentPatternList", fun _ => (.diagram [(.sequence [(.nonTerminal "ComponentPattern"), (.zeroOrMore (.sequence [(.terminal ","), (.nonTerminal "ComponentPattern")]))])])),
  ("ComponentPattern", fun _ => (.diagram [(.choice 0 [(.nonTerminal "Pattern"), (.nonTerminal "MatchAllPattern")])])),
  ("MatchAllPattern", fun _ => (.diagram [(.terminal "_")])),
  ("Primary", fun _ => (.diagram [(.choice 0 [(.nonTerminal "PrimaryNoNewArray"), (.nonTerminal "ArrayCreationExpression")])])),
  ("PrimaryNoNewArray", fun _ => (.diagram [(.choice 0 [(.nonTerminal "Literal"), (.nonTerminal "ClassLiteral"), (.terminal "this"), (.sequence [(.nonTerminal "TypeName"), (.terminal "."), (.terminal "this")]), (.sequence [(.terminal "("), (.nonTerminal "Expression"), (.terminal ")")]), (.nonTerminal "ClassInstanceCreationExpression"), (.nonTerminal "FieldAccess"), (.nonTerminal "ArrayAccess"), (.nonTerminal "MethodInvocation"), (.nonTerminal "MethodReference")])])),
  ("ClassLiteral", fun _ => (.diagram [(.choice 0 [(.sequence [(.nonTerminal "TypeName"), (.zeroOrMore (.sequence [(.terminal "["), (.terminal "]")])), (.terminal "."), (.terminal "class")]), (.sequence [(.nonTerminal "NumericType"), (.zeroOrMore (.sequence [(.terminal "["), (.terminal "]")])), (.terminal "."), (.terminal "class")]), (.sequence [(.terminal "boolean"), (.zeroOrMore (.sequence [(.terminal "["), (.terminal "]")])), (.terminal "."), (.terminal "class")]), (.sequence [(.terminal "void"), (.terminal "."), (.terminal "class")])])])),
  ("ClassInstanceCreationExpression", fun _ => (.diagram [(.choice 0 [(.nonTerminal "UnqualifiedClassInstanceCreationExpression"), (.sequence [(.nonTerminal "ExpressionName"), (.terminal "."), (.nonTerminal "UnqualifiedClassInstanceCreationExpression")]), (.sequence [(.nonTerminal "Primary"), (.terminal "."), (.nonTerminal "UnqualifiedClassInstanceCreationExpression")])])])),
  ("UnqualifiedClassInstanceCreationExpression", fun _ => (.diagram [(.sequence [(.terminal "new"), (.optional (.nonTerminal "TypeArguments")), (.nonTerminal "ClassOrInterfaceTypeToInstantiate"), (.terminal "("), (.optional (.nonTerminal "ArgumentList")), (.terminal ")"), (.optional (.nonTerminal "ClassBody"))])])),
  ("ClassOrInterfaceTypeToInstantiate", fun _ => (.diagram [(.sequence [(.zeroOrMore (.nonTerminal "Annotation")), (.nonTerminal "Identifier"), (.zeroOrMore (.sequence [(.terminal "."), (.zeroOrMore (.nonTerminal "Annotation")), (.nonTerminal "Identifier")])), (.optional (.nonTerminal "TypeArgumentsOrDiamond"))])])),
  ("TypeArgumentsOrDiamond", fun _ => (.diagram [(.choice 0 [(.nonTerminal "TypeArguments"), (.sequence [(.terminal "<"), (.terminal ">")])])])),
  ("ArrayCreationExpression", fun _ => (.diagram [(.choice 0 [(.nonTerminal "ArrayCreationExpressionWithoutInitializer"), (.nonTerminal "ArrayCreationExpressionWithInitializer")])])),
  ("ArrayCreationExpressionWithoutInitializer", fun _ => (.diagram [(.choice 0 [(.sequence [(.terminal "new"), (.nonTerminal "PrimitiveType"), (.nonTerminal "DimExprs"), (.optional (.nonTerminal "Dims"))]), (.sequence [(.terminal "new"), (.nonTerminal "ClassOrInterfaceType"), (.nonTerminal "DimExprs"), (.optional (.nonTerminal "Dims"))])])])),
  ("ArrayCreationExpressionWithInitializer", fun _ => (.diagram [(.choice 0 [(.sequence [(.terminal "new"), (.nonTerminal "PrimitiveType"), (.nonTerminal "Dims"), (.nonTerminal "ArrayInitializer")]), (.sequence [(.terminal "new"), (.nonTerminal "ClassOrInterfaceType"), (.nonTerminal "Dims"), (.nonTerminal "ArrayInitializer")])])])),
  ("DimExprs", fun _ => (.diagram [(.oneOrMore (.nonTerminal "DimExpr"))])),
  ("DimExpr", fun _ => (.diagram [(.sequence [(.zeroOrMore (.nonTerminal "Annotation")), (.terminal "["), (.nonTerminal "Expression"), (.terminal "]")])])),
  ("ArrayAccess", fun _ => (.diagram [(.choice 0 [(.sequence [(.nonTerminal "ExpressionName"), (.terminal "["), (.nonTerminal "Expression"), (.terminal "]")]), (.sequence [(.nonTerminal "PrimaryNoNewArray"), (.terminal "["), (.nonTerminal "Expression"), (.terminal "]")]), (.sequence [(.nonTerminal "ArrayCreationExpressionWithInitializer"), (.terminal "["), (.nonTerminal "Expression"), (.terminal "]")])])])),
  ("FieldAccess", fun _ => (.diagram [(.choice 0 [(.sequence [(.nonTerminal "Primary"), (.terminal "."), (.nonTerminal "Identifier")]), (.sequence [(.terminal "super"), (.terminal "."), (.nonTerminal "Identifier")]), (.sequence [(.nonTerminal "TypeName"), (.terminal "."), (.terminal "super"), (.terminal "."), (.nonTerminal "Identifier")])])])),
  ("MethodInvocation", fun _ => (.diagram [(.choice 0 [(.sequence [(.nonTerminal "MethodName"), (.terminal "("), (.optional (.nonTerminal "ArgumentList")), (.terminal ")")]), (.sequence [(.nonTerminal "TypeName"), (.terminal "."), (.optional (.nonTerminal "TypeArguments")), (.nonTerminal "Identifier"), (.terminal "("), (.optional (.nonTerminal "ArgumentList")), (.terminal ")")]), (.sequence [(.nonTerminal "ExpressionName"), (.terminal "."), (.optional (.nonTerminal "TypeArguments")), (.nonTerminal "Identifier"), (.terminal "("), (.optional (.nonTerminal "ArgumentList")), (.terminal ")")]), (.sequence [(.nonTerminal "Primary"), (.terminal "."), (.optional (.nonTerminal "TypeArguments")), (.nonTerminal "Identifier"), (.terminal "("), (.optional (.nonTerminal "ArgumentList")), (.terminal ")")]), (.sequence [(.terminal "super"), (.terminal "."), (.optional (.nonTerminal "TypeArguments")), (.nonTerminal "Identifier"), (.terminal "("), (.optional (.nonTerminal "ArgumentList")), (.terminal ")")]), (.sequence [(.nonTerminal "TypeName"), (.terminal "."), (.terminal "super"), (.terminal "."), (.optional (.nonTerminal "TypeArguments")), (.nonTerminal "Identifier"), (.terminal "("), (.optional (.nonTerminal "ArgumentList")), (.terminal ")")])])])),
  ("ArgumentList", fun _ => (.diagram [(.sequence [(.nonTerminal "Expression"), (.zeroOrMore (.sequence [(.terminal ","), (.nonTerminal "Expression")]))])])),
  ("MethodReference", fun _ => (.diagram [(.choice 0 [(.sequence [(.nonTerminal "ExpressionName"), (.terminal "::"), (.optional (.nonTerminal "TypeArguments")), (.nonTerminal "Identifier")]), (.sequence [(.nonTerminal "Primary"), (.terminal "::"), (.optional (.nonTerminal "TypeArguments")), (.nonTerminal "Identifier")]), (.sequence [(.nonTerminal "ReferenceType"), (.terminal "::"), (.optional (.nonTerminal "TypeArguments")), (.nonTerminal "Identifier")]), (.sequence [(.terminal "super"), (.terminal "::"), (.optional (.nonTerminal "TypeArguments")), (.nonTerminal "Identifier")]), (.sequence [(.nonTerminal "TypeName"), (.terminal "."), (.terminal "super"), (.terminal "::"), (.optional (.nonTerminal "TypeArguments")), (.nonTerminal "Identifier")]), (.sequence [(.nonTerminal "ClassType"), (.terminal "::"), (.optional (.nonTerminal "TypeArguments")), (.terminal "new")]), (.sequence [(.nonTerminal "ArrayType"), (.terminal "::"), (.terminal "new")])])])),
  ("Expression", fun _ => (.diagram [(.choice 0 [(.nonTerminal "LambdaExpression"), (.nonTerminal "AssignmentExpression")])])),
  ("LambdaExpression", fun _ => (.diagram [(.sequence [(.nonTerminal "LambdaParameters"), (.terminal "->"), (.nonTerminal "LambdaBody")])])),
  ("LambdaParameters", fun _ => (.diagram [(.choice 0 [(.sequence [(.terminal "("), (.optional (.nonTerminal "LambdaParameterList")), (.terminal ")")]), (.nonTerminal "ConciseLambdaParameter")])])),
  ("LambdaParameterList", fun _ => (.diagram [(.choice 0 [(.sequence [(.nonTerminal "NormalLambdaParameter"), (.zeroOrMore (.sequence [(.terminal ","), (.nonTerminal "NormalLambdaParameter")]))]), (.sequence [(.nonTerminal "ConciseLambdaParameter"), (.zeroOrMore (.sequence [(.terminal ","), (.nonTerminal "ConciseLambdaParameter")]))])])])),
  ("NormalLambdaParameter", fun _ => (.diagram [(.choice 0 [(.sequence [(.zeroOrMore (.nonTerminal "VariableModifier")), (.nonTerminal "LambdaParameterType"), (.nonTerminal "VariableDeclaratorId")]), (.nonTerminal "VariableArityParameter")])])),
  ("LambdaParameterType", fun _ => (.diagram [(.choice 0 [(.nonTerminal "UnannType"), (.terminal "var")])])),
  ("ConciseLambdaParameter", fun _ => (.diagram [(.choice 0 [(.nonTerminal "Identifier"), (.terminal "_")])])),
  ("LambdaBody", fun _ => (.diagram [(.choice 0 [(.nonTerminal "Expression"), (.nonTerminal "Block")])])),
  ("AssignmentExpression", fun _ => (.diagram [(.choice 0 [(.nonTerminal "ConditionalExpression"), (.nonTerminal "Assignment")])])),
  ("Assignment", fun _ => (.diagram [(.sequence [(.nonTerminal "LeftHandSide"), (.nonTerminal "AssignmentOperator"), (.nonTerminal "Expression")])])),
  ("LeftHandSide", fun _ => (.diagram [(.choice 0 [(.nonTerminal "ExpressionName"), (.nonTerminal "FieldAccess"), (.nonTerminal "ArrayAccess")])])),
  ("AssignmentOperator", fun _ => (.diagram [(.choice 0 [(.terminal "="), (.terminal "*="), (.terminal "/="), (.terminal "%="), (.terminal "+="), (.terminal "-="), (.terminal "<<="), (.terminal ">>="), (.terminal ">>>="), (.terminal "&="), (.terminal "^="), (.terminal "|=")])])),
  ("ConditionalExpression", fun _ => (.diagram [(.choice 0 [(.nonTerminal "ConditionalOrExpression"), (.sequence [(.nonTerminal "ConditionalOrExpression"), (.terminal "?"), (.nonTerminal "Expression"), (.terminal ":"), (.nonTerminal "ConditionalExpression")]), (.sequence [(.nonTerminal "ConditionalOrExpression"), (.terminal "?"), (.nonTerminal "Expression"), (.terminal ":"), (.nonTerminal "LambdaExpression")])])])),
  ("ConditionalOrExpression", fun _ => (.diagram [(.sequence [(.nonTerminal "ConditionalAndExpression"), (.zeroOrMore (.sequence [(.terminal "||"), (.nonTerminal "ConditionalAndExpression")]))])])),
  ("ConditionalAndExpression", fun _ => (.diagram [(.sequence [(.nonTerminal "InclusiveOrExpression"), (.zeroOrMore (.sequence [(.terminal "&&"), (.nonTerminal "InclusiveOrExpression")]))])])),
  ("InclusiveOrExpression", fun _ => (.diagram [(.sequence [(.nonTerminal "ExclusiveOrExpression"), (.zeroOrMore (.sequence [(.terminal "|"), (.nonTerminal "ExclusiveOrExpression")]))])])),
  ("ExclusiveOrExpression", fun _ => (.diagram [(.sequence [(.nonTerminal "AndExpression"), (.zeroOrMore (.sequence [(.terminal "^"), (.nonTerminal "AndExpression")]))])])),
  ("AndExpression", fun _ => (.diagram [(.sequence [(.nonTerminal "EqualityExpression"), (.zeroOrMore (.sequence [(.terminal "&"), (.nonTerminal "EqualityExpression")]))])])),
  ("EqualityExpression", fun _ => (.diagram [(.sequence [(.nonTerminal "RelationalExpression"), (.zeroOrMore (.choice 0 [(.sequence [(.terminal "=="), (.nonTerminal "RelationalExpression")]), (.sequence [(.terminal "!="), (.nonTerminal "RelationalExpression")])]))])])),
  ("RelationalExpression", fun _ => (.diagram [(.choice 0 [(.nonTerminal "ShiftExpression"), (.sequence [(.nonTerminal "RelationalExpression"), (.terminal "<"), (.nonTerminal "ShiftExpression")]), (.sequence [(.nonTerminal "RelationalExpression"), (.terminal ">"), (.nonTerminal "ShiftExpression")]), (.sequence [(.nonTerminal "RelationalExpression"), (.terminal "<="), (.nonTerminal "ShiftExpression")]), (.sequence [(.nonTerminal "RelationalExpression"), (.terminal ">="), (.nonTerminal "ShiftExpression")]), (.nonTerminal "InstanceofExpression")])]))
]

def rules25c6 : List (String × (Unit → RRNode)) := [
  ("InstanceofExpression", fun _ => (.diagram [(.choice 0 [(.sequence [(.nonTerminal "RelationalExpression"), (.terminal "instanceof"), (.nonTerminal "ReferenceType")]), (.sequence [(.nonTerminal "RelationalExpression"), (.terminal "instanceof"), (.nonTerminal "Pattern")])])])),
  ("ShiftExpression", fun _ => (.diagram [(.sequence [(.nonTerminal "AdditiveExpression"), (.zeroOrMore (.choice 0 [(.sequence [(.terminal "<<"), (.nonTerminal "AdditiveExpression")]), (.sequence [(.terminal ">>"), (.nonTerminal "AdditiveExpression")]), (.sequence [(.terminal ">>>"), (.nonTerminal "AdditiveExpression")])]))])])),
  ("AdditiveExpression", fun _ => (.diagram [(.sequence [(.nonTerminal "MultiplicativeExpression"), (.zeroOrMore (.choice 0 [(.sequence [(.terminal "+"), (.nonTerminal "MultiplicativeExpression")]), (.sequence [(.terminal "-"), (.nonTerminal "MultiplicativeExpression")])]))])])),
  ("MultiplicativeExpression", fun _ => (.diagram [(.sequence [(.nonTerminal "UnaryExpression"), (.zeroOrMore (.choice 0 [(.sequence [(.terminal "*"), (.nonTerminal "UnaryExpression")]), (.sequence [(.terminal "/"), (.nonTerminal "UnaryExpression")]), (.sequence [(.terminal "%"), (.nonTerminal "UnaryExpression")])]))])])),
  ("UnaryExpression", fun _ => (.diagram [(.choice 0 [(.nonTerminal "PreIncrementExpression"), (.nonTerminal "PreDecrementExpression"), (.sequence [(.terminal "+"), (.nonTerminal "UnaryExpression")]), (.sequence [(.terminal "-"), (.nonTerminal "UnaryExpression")]), (.nonTerminal "UnaryExpressionNotPlusMinus")])])),
  ("PreIncrementExpression", fun _ => (.diagram [(.sequence [(.terminal "++"), (.nonTerminal "UnaryExpression")])])),
  ("PreDecrementExpression", fun _ => (.diagram [(.sequence [(.terminal "--"), (.nonTerminal "UnaryExpression")])])),
  ("UnaryExpressionNotPlusMinus", fun _ => (.diagram [(.choice 0 [(.nonTerminal "PostfixExpression"), (.sequence [(.terminal "~"), (.nonTerminal "UnaryExpression")]), (.sequence [(.terminal "!"), (.nonTerminal "UnaryExpression")]), (.nonTerminal "CastExpression"), (.nonTerminal "SwitchExpression")])])),
  ("PostfixExpression", fun _ => (.diagram [(.choice 0 [(.nonTerminal "Primary"), (.nonTerminal "ExpressionName"), (.nonTerminal "PostIncrementExpression"), (.nonTerminal "PostDecrementExpression")])])),
  ("PostIncrementExpression", fun _ => (.diagram [(.sequence [(.nonTerminal "PostfixExpression"), (.terminal "++")])])),
  ("PostDecrementExpression", fun _ => (.diagram [(.sequence [(.nonTerminal "PostfixExpression"), (.terminal "--")])])),
  ("CastExpression", fun _ => (.diagram [(.choice 0 [(.sequence [(.terminal "("), (.nonTerminal "PrimitiveType"), (.terminal ")"), (.nonTerminal "UnaryExpression")]), (.sequence [(.terminal "("), (.nonTerminal "ReferenceType"), (.zeroOrMore (.nonTerminal "AdditionalBound")), (.terminal ")"), (.nonTerminal "UnaryExpressionNotPlusMinus")]), (.sequence [(.terminal "("), (.nonTerminal "ReferenceType"), (.zeroOrMore (.nonTerminal "AdditionalBound")), (.terminal ")"), (.nonTerminal "LambdaExpression")])])])),
  ("SwitchExpression", fun _ => (.diagram [(.sequence [(.terminal "switch"), (.terminal "("), (.nonTerminal "Expression"), (.terminal ")"), (.nonTerminal "SwitchBlock")])]))
]

def rules25 : List (String × (Unit → RRNode)) :=
  rules25c0 ++ rules25c1 ++ rules25c2 ++ rules25c3 ++ rules25c4 ++ rules25c5 ++ rules25c6

def rulesJavac0 : List (String × (Unit → RRNode)) := [
  ("Identifier", fun _ => (.diagram [(.sequence [(.nonTerminal "IdentifierChars"), (.comment "but not ReservedKeyword, BooleanLiteral, or NullLiteral")])])),
  ("IdentifierChars", fun _ => (.diagram [(.sequence [(.nonTerminal "JavaLetter"), (.zeroOrMore (.nonTerminal "JavaLetterOrDigit"))])])),
  ("JavaLetter", fun _ => (.diagram [(.comment "any Unicode character that is a \x27Java letter\x27")])),
  ("JavaLetterOrDigit", fun _ => (.diagram [(.comment "any Unicode character that is a \x27Java letter-or-digit\x27")])),
  ("TypeIdentifier", fun _ => (.diagram [(.sequence [(.nonTerminal "Identifier"), (.comment "but not permits, record, sealed, var, or yield")])])),
  ("UnqualifiedMethodIdentifier", fun _ => (.diagram [(.sequence [(.nonTerminal "Identifier"), (.comment "but not yield")])])),
  ("Literal", fun _ => (.diagram [(.choice 0 [(.nonTerminal "IntegerLiteral"), (.nonTerminal "FloatingPointLiteral"), (.nonTerminal "BooleanLiteral"), (.nonTerminal "CharacterLiteral"), (.nonTerminal "StringLiteral"), (.nonTerminal "TextBlock"), (.nonTerminal "NullLiteral")])])),
  ("Type", fun _ => (.diagram [(.choice 0 [(.nonTerminal "PrimitiveType"), (.nonTerminal "ReferenceType")])])),
  ("PrimitiveType", fun _ => (.diagram [(.choice 0 [(.sequence [(.zeroOrMore (.nonTerminal "Annotation")), (.nonTerminal "NumericType")]), (.sequence [(.zeroOrMore (.nonTerminal "Annotation")), (.terminal "boolean")])])])),
  ("NumericType", fun _ => (.diagram [(.choice 0 [(.nonTerminal "IntegralType"), (.nonTerminal "FloatingPointType")])])),
  ("IntegralType", fun _ => (.diagram [(.choice 0 [(.terminal "byte"), (.terminal "short"), (.terminal "int"), (.terminal "long"), (.terminal "char")])])),
  ("FloatingPointType", fun _ => (.diagram [(.choice 0 [(.terminal "float"), (.terminal "double")])])),
  ("ReferenceType", fun _ => (.diagram [(.choice 0 [(.nonTerminal "ClassOrInterfaceType"), (.nonTerminal "TypeVariable"), (.nonTerminal "ArrayType")])])),
  ("ClassOrInterfaceType", fun _ => (.diagram [(.choice 0 [(.nonTerminal "ClassType"), (.nonTerminal "InterfaceType")])])),
  ("ClassType", fun _ => (.diagram [(.choice 0 [(.sequence [(.zeroOrMore (.nonTerminal "Annotation")), (.nonTerminal "TypeIdentifier"), (.optional (.nonTerminal "TypeArguments"))]), (.sequence [(.nonTerminal "PackageName"), (.terminal "."), (.zeroOrMore (.nonTerminal "Annotation")), (.nonTerminal "TypeIdentifier"), (.optional (.nonTerminal "TypeArguments"))]), (.sequence [(.nonTerminal "ClassOrInterfaceType"), (.terminal "."), (.zeroOrMore (.nonTerminal "Annotation")), (.nonTerminal "TypeIdentifier"), (.optional (.nonTerminal "TypeArguments"))])])])),
  ("InterfaceType", fun _ => (.diagram [(.nonTerminal "ClassType")])),
  ("TypeVariable", fun _ => (.diagram [(.sequence [(.zeroOrMore (.nonTerminal "Annotation")), (.nonTerminal "TypeIdentifier")])])),
  ("ArrayType", fun _ => (.diagram [(.choice 0 [(.sequence [(.nonTerminal "PrimitiveType"), (.nonTerminal "Dims")]), (.sequence [(.nonTerminal "ClassOrInterfaceType"), (.nonTerminal "Dims")]), (.sequence [(.nonTerminal "TypeVariable"), (.nonTerminal "Dims")])])])),
  ("Dims", fun _ => (.diagram [(.oneOrMore (.sequence [(.zeroOrMore (.nonTerminal "Annotation")), (.terminal "["), (.terminal "]")]))])),
  ("TypeParameter", fun _ => (.diagram [(.sequence [(.zeroOrMore (.nonTerminal "TypeParameterModifier")), (.nonTerminal "TypeIdentifier"), (.optional (.nonTerminal "TypeBound"))])])),
  ("TypeParameterModifier", fun _ => (.diagram [(.nonTerminal "Annotation")])),
  ("TypeBound", fun _ => (.diagram [(.choice 0 [(.sequence [(.terminal "extends"), (.nonTerminal "TypeVariable")]), (.sequence [(.terminal "extends"), (.nonTerminal "ClassOrInterfaceType"), (.zeroOrMore (.nonTerminal "AdditionalBound"))])])])),
  ("AdditionalBound", fun _ => (.diagram [(.sequence [(.terminal "&"), (.nonTerminal "InterfaceType")])])),
  ("TypeArguments", fun _ => (.diagram [(.sequence [(.terminal "<"), (.nonTerminal "TypeArgumentList"), (.terminal ">")])])),
  ("TypeArgumentList", fun _ => (.diagram [(.sequence [(.nonTerminal "TypeArgument"), (.zeroOrMore (.sequence [(.terminal ","), (.nonTerminal "TypeArgument")]))])])),
  ("TypeArgument", fun _ => (.diagram [(.choice 0 [(.nonTerminal "ReferenceType"), (.nonTerminal "Wildcard")])])),
  ("Wildcard", fun _ => (.diagram [(.sequence [(.zeroOrMore (.nonTerminal "Annotation")), (.terminal "?"), (.optional (.nonTerminal "WildcardBounds"))])])),
  ("WildcardBounds", fun _ => (.diagram [(.choice 0 [(.sequence [(.terminal "extends"), (.nonTerminal "ReferenceType")]), (.sequence [(.terminal "super"), (.nonTerminal "ReferenceType")])])])),
  ("ModuleName", fun _ => (.diagram [(.sequence [(.nonTerminal "Identifier"), (.zeroOrMore (.sequence [(.terminal "."), (.nonTerminal "Identifier")]))])])),
  ("PackageName", fun _ => (.diagram [(.sequence [(.nonTerminal "Identifier"), (.zeroOrMore (.sequence [(.terminal "."), (.nonTerminal "Identifier")]))])])),
  ("TypeName", fun _ => (.diagram [(.choice 0 [(.nonTerminal "TypeIdentifier"), (.sequence [(.nonTerminal "PackageOrTypeName"), (.terminal "."), (.nonTerminal "TypeIdentifier")])])])),
  ("ExpressionName", fun _ => (.diagram [(.choice 0 [(.nonTerminal "Identifier"), (.sequence [(.nonTerminal "AmbiguousName"), (.terminal "."), (.nonTerminal "Identifier")])])])),
  ("MethodName", fun _ => (.diagram [(.nonTerminal "UnqualifiedMethodIdentifier")])),
  ("PackageOrTypeName", fun _ => (.diagram [(.sequence [(.nonTerminal "Identifier"), (.zeroOrMore (.sequence [(.terminal "."), (.nonTerminal "Identifier")]))])])),
  ("AmbiguousName", fun _ => (.diagram [(.sequence [(.nonTerminal "Identifier"), (.zeroOrMore (.sequence [(.terminal "."), (.nonTerminal "Identifier")]))])])),
  ("CompilationUnit", fun _ => (.diagram [(.choice 0 [(.nonTerminal "OrdinaryCompilationUnit"), (.nonTerminal "ModularCompilationUnit")])])),
  ("OrdinaryCompilationUnit", fun _ => (.diagram [(.sequence [(.optional (.nonTerminal "PackageDeclaration")), (.zeroOrMore (.nonTerminal "ImportDeclaration")), (.zeroOrMore (.nonTerminal "TopLevelClassOrInterfaceDeclaration"))])])),
  ("ModularCompilationUnit", fun _ => (.diagram [(.sequence [(.zeroOrMore (.nonTerminal "ImportDeclaration")), (.nonTerminal "ModuleDeclaration")])])),
  ("PackageDeclaration", fun _ => (.diagram [(.sequence [(.zeroOrMore (.nonTerminal "PackageModifier")), (.terminal "package"), (.nonTerminal "Identifier"), (.zeroOrMore (.sequence [(.terminal "."), (.nonTerminal "Identifier")])), (.terminal ";")])])),
  ("PackageModifier", fun _ => (.diagram [(.nonTerminal "Annotation")]))
]

def rulesJavac1 : List (String × (Unit → RRNode)) := [
  ("ImportDeclaration", fun _ => (.diagram [(.choice 0 [(.nonTerminal "SingleTypeImportDeclaration"), (.nonTerminal "TypeImportOnDemandDeclaration"), (.nonTerminal "SingleStaticImportDeclaration"), (.nonTerminal "StaticImportOnDemandDeclaration")])])),
  ("SingleTypeImportDeclaration", fun _ => (.diagram [(.sequence [(.terminal "import"), (.nonTerminal "TypeName"), (.terminal ";")])])),
  ("TypeImportOnDemandDeclaration", fun _ => (.diagram [(.sequence [(.terminal "import"), (.nonTerminal "PackageOrTypeName"), (.terminal "."), (.terminal "*"), (.terminal ";")])])),
  ("SingleStaticImportDeclaration", fun _ => (.diagram [(.sequence [(.terminal "import"), (.terminal "static"), (.nonTerminal "TypeName"), (.terminal "."), (.nonTerminal "Identifier"), (.terminal ";")])])),
  ("StaticImportOnDemandDeclaration", fun _ => (.diagram [(.sequence [(.terminal "import"), (.terminal "static"), (.nonTerminal "TypeName"), (.terminal "."), (.terminal "*"), (.terminal ";")])])),
  ("TopLevelClassOrInterfaceDeclaration", fun _ => (.diagram [(.choice 0 [(.nonTerminal "ClassDeclaration"), (.nonTerminal "InterfaceDeclaration"), (.terminal ";")])])),
  ("ModuleDeclaration", fun _ => (.diagram [(.sequence [(.zeroOrMore (.nonTerminal "Annotation")), (.optional (.terminal "open")), (.terminal "module"), (.nonTerminal "Identifier"), (.zeroOrMore (.sequence [(.terminal "."), (.nonTerminal "Identifier")])), (.terminal "\x7b"), (.zeroOrMore (.nonTerminal "ModuleDirective")), (.terminal "\x7d")])])),
  ("ModuleDirective", fun _ => (.diagram [(.choice 0 [(.sequence [(.terminal "requires"), (.zeroOrMore (.nonTerminal "RequiresModifier")), (.nonTerminal "ModuleName"), (.terminal ";")]), (.sequence [(.terminal "exports"), (.nonTerminal "PackageName"), (.optional (.sequence [(.terminal "to"), (.nonTerminal "ModuleName"), (.zeroOrMore (.sequence [(.terminal ","), (.nonTerminal "ModuleName")]))])), (.terminal ";")]), (.sequence [(.terminal "opens"), (.nonTerminal "PackageName"), (.optional (.sequence [(.terminal "to"), (.nonTerminal "ModuleName"), (.zeroOrMore (.sequence [(.terminal ","), (.nonTerminal "ModuleName")]))])), (.terminal ";")]), (.sequence [(.terminal "uses"), (.nonTerminal "TypeName"), (.terminal ";")]), (.sequence [(.terminal "provides"), (.nonTerminal "TypeName"), (.terminal "with"), (.nonTerminal "TypeName"), (.zeroOrMore (.sequence [(.terminal ","), (.nonTerminal "TypeName")])), (.terminal ";")])])])),
  ("RequiresModifier", fun _ => (.diagram [(.choice 0 [(.terminal "transitive"), (.terminal "static")])])),
  ("ClassDeclaration", fun _ => (.diagram [(.choice 0 [(.nonTerminal "NormalClassDeclaration"), (.nonTerminal "EnumDeclaration"), (.nonTerminal "RecordDeclaration")])])),
  ("NormalClassDeclaration", fun _ => (.diagram [(.sequence [(.zeroOrMore (.nonTerminal "ClassModifier")), (.terminal "class"), (.nonTerminal "TypeIdentifier"), (.optional (.nonTerminal "TypeParameters")), (.optional (.nonTerminal "ClassExtends")), (.optional (.nonTerminal "ClassImplements")), (.optional (.nonTerminal "ClassPermits")), (.nonTerminal "ClassBody")])])),
  ("ClassModifier", fun _ => (.diagram [(.choice 0 [(.nonTerminal "Annotation"), (.terminal "public"), (.terminal "protected"), (.terminal "private"), (.terminal "abstract"), (.terminal "static"), (.terminal "final"), (.terminal "sealed"), (.terminal "non-sealed"), (.terminal "strictfp")])])),
  ("TypeParameters", fun _ => (.diagram [(.sequence [(.terminal "<"), (.nonTerminal "TypeParameterList"), (.terminal ">")])])),
  ("TypeParameterList", fun _ => (.diagram [(.sequence [(.nonTerminal "TypeParameter"), (.zeroOrMore (.sequence [(.terminal ","), (.nonTerminal "TypeParameter")]))])])),
  ("ClassExtends", fun _ => (.diagram [(.sequence [(.terminal "extends"), (.nonTerminal "ClassType")])])),
  ("ClassImplements", fun _ => (.diagram [(.sequence [(.terminal "implements"), (.nonTerminal "InterfaceTypeList")])])),
  ("InterfaceTypeList", fun _ => (.diagram [(.sequence [(.nonTerminal "InterfaceType"), (.zeroOrMore (.sequence [(.terminal ","), (.nonTerminal "InterfaceType")]))])])),
  ("ClassPermits", fun _ => (.diagram [(.sequence [(.terminal "permits"), (.nonTerminal "TypeName"), (.zeroOrMore (.sequence [(.terminal ","), (.nonTerminal "TypeName")]))])])),
  ("ClassBody", fun _ => (.diagram [(.sequence [(.terminal "\x7b"), (.zeroOrMore (.nonTerminal "ClassBodyDeclaration")), (.terminal "\x7d")])])),
  ("ClassBodyDeclaration", fun _ => (.diagram [(.choice 0 [(.nonTerminal "ClassMemberDeclaration"), (.nonTerminal "InstanceInitializer"), (.nonTerminal "StaticInitializer"), (.nonTerminal "ConstructorDeclaration")])])),
  ("ClassMemberDeclaration", fun _ => (.diagram [(.choice 0 [(.nonTerminal "FieldDeclaration"), (.nonTerminal "MethodDeclaration"), (.nonTerminal "ClassDeclaration"), (.nonTerminal "InterfaceDeclaration"), (.terminal ";")])])),
  ("FieldDeclaration", fun _ => (.diagram [(.sequence [(.zeroOrMore (.nonTerminal "FieldModifier")), (.nonTerminal "UnannType"), (.nonTerminal "VariableDeclaratorList"), (.terminal ";")])])),
  ("FieldModifier", fun _ => (.diagram [(.choice 0 [(.nonTerminal "Annotation"), (.terminal "public"), (.terminal "protected"), (.terminal "private"), (.terminal "static"), (.terminal "final"), (.terminal "transient"), (.terminal "volatile")])])),
  ("VariableDeclaratorList", fun _ => (.diagram [(.sequence [(.nonTerminal "VariableDeclarator"), (.zeroOrMore (.sequence [(.terminal ","), (.nonTerminal "VariableDeclarator")]))])])),
  ("VariableDeclarator", fun _ => (.diagram [(.sequence [(.nonTerminal "VariableDeclaratorId"), (.optional (.sequence [(.terminal "="), (.nonTerminal "VariableInitializer")]))])])),
  ("VariableDeclaratorId", fun _ => (.diagram [(.choice 0 [(.sequence [(.nonTerminal "Identifier"), (.optional (.nonTerminal "Dims"))]), (.terminal "_")])])),
  ("VariableInitializer", fun _ => (.diagram [(.choice 0 [(.nonTerminal "Expression"), (.nonTerminal "ArrayInitializer")])])),
  ("UnannType", fun _ => (.diagram [(.choice 0 [(.nonTerminal "UnannPrimitiveType"), (.nonTerminal "UnannReferenceType")])])),
  ("UnannPrimitiveType", fun _ => (.diagram [(.choice 0 [(.nonTerminal "NumericType"), (.terminal "boolean")])])),
  ("UnannReferenceType", fun _ => (.diagram [(.choice 0 [(.nonTerminal "UnannClassOrInterfaceType"), (.nonTerminal "UnannTypeVariable"), (.nonTerminal "UnannArrayType")])])),
  ("UnannClassOrInterfaceType", fun _ => (.diagram [(.choice 0 [(.nonTerminal "UnannClassType"), (.nonTerminal "UnannInterfaceType")])])),
  ("UnannClassType", fun _ => (.diagram [(.choice 0 [(.sequence [(.nonTerminal "TypeIdentifier"), (.optional (.nonTerminal "TypeArguments"))]), (.sequence [(.nonTerminal "PackageName"), (.terminal "."), (.zeroOrMore (.nonTerminal "Annotation")), (.nonTerminal "TypeIdentifier"), (.optional (.nonTerminal "TypeArguments"))]), (.sequence [(.nonTerminal "UnannClassOrInterfaceType"), (.terminal "."), (.zeroOrMore (.nonTerminal "Annotation")), (.nonTerminal "TypeIdentifier"), (.optional (.nonTerminal "TypeArguments"))])])])),
  ("UnannInterfaceType", fun _ => (.diagram [(.nonTerminal "UnannClassType")])),
  ("UnannTypeVariable", fun _ => (.diagram [(.nonTerminal "TypeIdentifier")])),
  ("UnannArrayType", fun _ => (.diagram [(.choice 0 [(.sequence [(.nonTerminal "UnannPrimitiveType"), (.nonTerminal "Dims")]), (.sequence [(.nonTerminal "UnannClassOrInterfaceType"), (.nonTerminal "Dims")]), (.sequence [(.nonTerminal "UnannTypeVariable"), (.nonTerminal "Dims")])])])),
  ("MethodDeclaration", fun _ => (.diagram [(.sequence [(.zeroOrMore (.nonTerminal "MethodModifier")), (.nonTerminal "MethodHeader"), (.nonTerminal "MethodBody")])])),
  ("MethodModifier", fun _ => (.diagram [(.choice 0 [(.nonTerminal "Annotation"), (.terminal "public"), (.terminal "protected"), (.terminal "private"), (.terminal "abstract"), (.terminal "static"), (.terminal "final"), (.terminal "synchronized"), (.terminal "native"), (.terminal "strictfp")])])),
  ("MethodHeader", fun _ => (.diagram [(.choice 0 [(.sequence [(.nonTerminal "Result"), (.nonTerminal "MethodDeclarator"), (.optional (.nonTerminal "Throws"))]), (.sequence [(.nonTerminal "TypeParameters"), (.zeroOrMore (.nonTerminal "Annotation")), (.nonTerminal "Result"), (.nonTerminal "MethodDeclarator"), (.optional (.nonTerminal "Throws"))])])])),
  ("Result", fun _ => (.diagram [(.choice 0 [(.nonTerminal "UnannType"), (.terminal "void")])])),
  ("MethodDeclarator", fun _ => (.diagram [(.sequence [(.nonTerminal "Identifier"), (.terminal "("), (.optional (.sequence [(.nonTerminal "ReceiverParameter"), (.terminal ",")])), (.optional (.nonTerminal "FormalParameterList")), (.terminal ")"), (.optional (.nonTerminal "Dims"))])]))
]

def rulesJavac2 : List (String × (Unit → RRNode)) := [
  ("ReceiverParameter", fun _ => (.diagram [(.sequence [(.zeroOrMore (.nonTerminal "Annotation")), (.nonTerminal "UnannType"), (.optional (.sequence [(.nonTerminal "Identifier"), (.terminal ".")])), (.terminal "this")])])),
  ("FormalParameterList", fun _ => (.diagram [(.sequence [(.nonTerminal "FormalParameter"), (.zeroOrMore (.sequence [(.terminal ","), (.nonTerminal "FormalParameter")]))])])),
  ("FormalParameter", fun _ => (.diagram [(.choice 0 [(.sequence [(.zeroOrMore (.nonTerminal "VariableModifier")), (.nonTerminal "UnannType"), (.nonTerminal "VariableDeclaratorId")]), (.nonTerminal "VariableArityParameter")])])),
  ("VariableArityParameter", fun _ => (.diagram [(.sequence [(.zeroOrMore (.nonTerminal "VariableModifier")), (.nonTerminal "UnannType"), (.zeroOrMore (.nonTerminal "Annotation")), (.terminal "..."), (.nonTerminal "Identifier")])])),
  ("VariableModifier", fun _ => (.diagram [(.choice 0 [(.nonTerminal "Annotation"), (.terminal "final")])])),
  ("Throws", fun _ => (.diagram [(.sequence [(.terminal "throws"), (.nonTerminal "ExceptionTypeList")])])),
  ("ExceptionTypeList", fun _ => (.diagram [(.sequence [(.nonTerminal "ExceptionType"), (.zeroOrMore (.sequence [(.terminal ","), (.nonTerminal "ExceptionType")]))])])),
  ("ExceptionType", fun _ => (.diagram [(.choice 0 [(.nonTerminal "ClassType"), (.nonTerminal "TypeVariable")])])),
  ("MethodBody", fun _ => (.diagram [(.choice 0 [(.nonTerminal "Block"), (.terminal ";")])])),
  ("InstanceInitializer", fun _ => (.diagram [(.nonTerminal "Block")])),
  ("StaticInitializer", fun _ => (.diagram [(.sequence [(.terminal "static"), (.nonTerminal "Block")])])),
  ("ConstructorDeclaration", fun _ => (.diagram [(.sequence [(.zeroOrMore (.nonTerminal "ConstructorModifier")), (.nonTerminal "ConstructorDeclarator"), (.optional (.nonTerminal "Throws")), (.nonTerminal "ConstructorBody")])])),
  ("ConstructorModifier", fun _ => (.diagram [(.choice 0 [(.nonTerminal "Annotation"), (.terminal "public"), (.terminal "protected"), (.terminal "private")])])),
  ("ConstructorDeclarator", fun _ => (.diagram [(.sequence [(.optional (.nonTerminal "TypeParameters")), (.nonTerminal "SimpleTypeName"), (.terminal "("), (.optional (.sequence [(.nonTerminal "ReceiverParameter"), (.terminal ",")])), (.optional (.nonTerminal "FormalParameterList")), (.terminal ")")])])),
  ("SimpleTypeName", fun _ => (.diagram [(.nonTerminal "TypeIdentifier")])),
  ("ConstructorBody", fun _ => (.diagram [(.choice 0 [(.sequence [(.terminal "\x7b"), (.optional (.nonTerminal "BlockStatements")), (.nonTerminal "ConstructorInvocation"), (.optional (.nonTerminal "BlockStatements")), (.terminal "\x7d")]), (.sequence [(.terminal "\x7b"), (.optional (.nonTerminal "BlockStatements")), (.terminal "\x7d")])])])),
  ("ConstructorInvocation", fun _ => (.diagram [(.choice 0 [(.sequence [(.optional (.nonTerminal "TypeArguments")), (.terminal "this"), (.terminal "("), (.optional (.nonTerminal "ArgumentList")), (.terminal ")"), (.terminal ";")]), (.sequence [(.optional (.nonTerminal "TypeArguments")), (.terminal "super"), (.terminal "("), (.optional (.nonTerminal "ArgumentList")), (.terminal ")"), (.terminal ";")]), (.sequence [(.nonTerminal "ExpressionName"), (.terminal "."), (.optional (.nonTerminal "TypeArguments")), (.terminal "super"), (.terminal "("), (.optional (.nonTerminal "ArgumentList")), (.terminal ")"), (.terminal ";")]), (.sequence [(.nonTerminal "Primary"), (.terminal "."), (.optional (.nonTerminal "TypeArguments")), (.terminal "super"), (.terminal "("), (.optional (.nonTerminal "ArgumentList")), (.terminal ")"), (.terminal ";")])])])),
  ("EnumDeclaration", fun _ => (.diagram [(.sequence [(.zeroOrMore (.nonTerminal "ClassModifier")), (.terminal "enum"), (.nonTerminal "TypeIdentifier"), (.optional (.nonTerminal "ClassImplements")), (.nonTerminal "EnumBody")])])),
  ("EnumBody", fun _ => (.diagram [(.sequence [(.terminal "\x7b"), (.optional (.nonTerminal "EnumConstantList")), (.optional (.terminal ",")), (.optional (.nonTerminal "EnumBodyDeclarations")), (.terminal "\x7d")])])),
  ("EnumConstantList", fun _ => (.diagram [(.sequence [(.nonTerminal "EnumConstant"), (.zeroOrMore (.sequence [(.terminal ","), (.nonTerminal "EnumConstant")]))])])),
  ("EnumConstant", fun _ => (.diagram [(.sequence [(.zeroOrMore (.nonTerminal "EnumConstantModifier")), (.nonTerminal "Identifier"), (.optional (.sequence [(.terminal "("), (.optional (.nonTerminal "ArgumentList")), (.terminal ")")])), (.optional (.nonTerminal "ClassBody"))])])),
  ("EnumConstantModifier", fun _ => (.diagram [(.nonTerminal "Annotation")])),
  ("EnumBodyDeclarations", fun _ => (.diagram [(.sequence [(.terminal ";"), (.zeroOrMore (.nonTerminal "ClassBodyDeclaration"))])])),
  ("RecordDeclaration", fun _ => (.diagram [(.sequence [(.zeroOrMore (.nonTerminal "ClassModifier")), (.terminal "record"), (.nonTerminal "TypeIdentifier"), (.optional (.nonTerminal "TypeParameters")), (.nonTerminal "RecordHeader"), (.optional (.nonTerminal "ClassImplements")), (.nonTerminal "RecordBody")])])),
  ("RecordHeader", fun _ => (.diagram [(.sequence [(.terminal "("), (.optional (.nonTerminal "RecordComponentList")), (.terminal ")")])])),
  ("RecordComponentList", fun _ => (.diagram [(.sequence [(.nonTerminal "RecordComponent"), (.zeroOrMore (.sequence [(.terminal ","), (.nonTerminal "RecordComponent")]))])])),
  ("RecordComponent", fun _ => (.diagram [(.choice 0 [(.sequence [(.zeroOrMore (.nonTerminal "RecordComponentModifier")), (.nonTerminal "UnannType"), (.nonTerminal "Identifier")]), (.nonTerminal "VariableArityRecordComponent")])])),
  ("VariableArityRecordComponent", fun _ => (.diagram [(.sequence [(.zeroOrMore (.nonTerminal "RecordComponentModifier")), (.nonTerminal "UnannType"), (.zeroOrMore (.nonTerminal "Annotation")), (.terminal "..."), (.nonTerminal "Identifier")])])),
  ("RecordComponentModifier", fun _ => (.diagram [(.nonTerminal "Annotation")])),
  ("RecordBody", fun _ => (.diagram [(.sequence [(.terminal "\x7b"), (.zeroOrMore (.nonTerminal "RecordBodyDeclaration")), (.terminal "\x7d")])])),
  ("RecordBodyDeclaration", fun _ => (.diagram [(.choice 0 [(.nonTerminal "ClassBodyDeclaration"), (.nonTerminal "CompactConstructorDeclaration")])])),
  ("CompactConstructorDeclaration", fun _ => (.diagram [(.sequence [(.zeroOrMore (.nonTerminal "ConstructorModifier")), (.nonTerminal "SimpleTypeName"), (.nonTerminal "ConstructorBody")])])),
  ("InterfaceDeclaration", fun _ => (.diagram [(.choice 0 [(.nonTerminal "NormalInterfaceDeclaration"), (.nonTerminal "AnnotationInterfaceDeclaration")])])),
  ("NormalInterfaceDeclaration", fun _ => (.diagram [(.sequence [(.zeroOrMore (.nonTerminal "InterfaceModifier")), (.terminal "interface"), (.nonTerminal "TypeIdentifier"), (.optional (.nonTerminal "TypeParameters")), (.optional (.nonTerminal "InterfaceExtends")), (.optional (.nonTerminal "InterfacePermits")), (.nonTerminal "InterfaceBody")])])),
  ("InterfaceModifier", fun _ => (.diagram [(.choice 0 [(.nonTerminal "Annotation"), (.terminal "public"), (.terminal "protected"), (.terminal "private"), (.terminal "abstract"), (.terminal "static"), (.terminal "sealed"), (.terminal "non-sealed"), (.terminal "strictfp")])])),
  ("InterfaceExtends", fun _ => (.diagram [(.sequence [(.terminal "extends"), (.nonTerminal "InterfaceTypeList")])])),
  ("InterfacePermits", fun _ => (.diagram [(.sequence [(.terminal "permits"), (.nonTerminal "TypeName"), (.zeroOrMore (.sequence [(.terminal ","), (.nonTerminal "TypeName")]))])])),
  ("InterfaceBody", fun _ => (.diagram [(.sequence [(.terminal "\x7b"), (.zeroOrMore (.nonTerminal "InterfaceMemberDeclaration")), (.terminal "\x7d")])])),
  ("InterfaceMemberDeclaration", fun _ => (.diagram [(.choice 0 [(.nonTerminal "ConstantDeclaration"), (.nonTerminal "InterfaceMethodDeclaration"), (.nonTerminal "ClassDeclaration"), (.nonTerminal "InterfaceDeclaration"), (.terminal ";")])])),
  ("ConstantDeclaration", fun _ => (.diagram [(.sequence [(.zeroOrMore (.nonTerminal "ConstantModifier")), (.nonTerminal "UnannType"), (.nonTerminal "VariableDeclaratorList"), (.terminal ";")])]))
]

def rulesJavac3 : List (String × (Unit → RRNode)) := [
  ("ConstantModifier", fun _ => (.diagram [(.choice 0 [(.nonTerminal "Annotation"), (.terminal "public"), (.terminal "static"), (.terminal "final")])])),
  ("InterfaceMethodDeclaration", fun _ => (.diagram [(.sequence [(.zeroOrMore (.nonTerminal "InterfaceMethodModifier")), (.nonTerminal "MethodHeader"), (.nonTerminal "MethodBody")])])),
  ("InterfaceMethodModifier", fun _ => (.diagram [(.choice 0 [(.nonTerminal "Annotation"), (.terminal "public"), (.terminal "private"), (.terminal "abstract"), (.terminal "default"), (.terminal "static"), (.terminal "strictfp")])])),
  ("AnnotationInterfaceDeclaration", fun _ => (.diagram [(.sequence [(.zeroOrMore (.nonTerminal "InterfaceModifier")), (.terminal "@"), (.terminal "interface"), (.nonTerminal "TypeIdentifier"), (.nonTerminal "AnnotationInterfaceBody")])])),
  ("AnnotationInterfaceBody", fun _ => (.diagram [(.sequence [(.terminal "\x7b"), (.zeroOrMore (.nonTerminal "AnnotationInterfaceMemberDeclaration")), (.terminal "\x7d")])])),
  ("AnnotationInterfaceMemberDeclaration", fun _ => (.diagram [(.choice 0 [(.nonTerminal "AnnotationInterfaceElementDeclaration"), (.nonTerminal "ConstantDeclaration"), (.nonTerminal "ClassDeclaration"), (.nonTerminal "InterfaceDeclaration"), (.terminal ";")])])),
  ("AnnotationInterfaceElementDeclaration", fun _ => (.diagram [(.sequence [(.zeroOrMore (.nonTerminal "AnnotationInterfaceElementModifier")), (.nonTerminal "UnannType"), (.nonTerminal "Identifier"), (.terminal "("), (.terminal ")"), (.optional (.nonTerminal "Dims")), (.optional (.nonTerminal "DefaultValue")), (.terminal ";")])])),
  ("AnnotationInterfaceElementModifier", fun _ => (.diagram [(.choice 0 [(.nonTerminal "Annotation"), (.terminal "public"), (.terminal "abstract")])])),
  ("DefaultValue", fun _ => (.diagram [(.sequence [(.terminal "default"), (.nonTerminal "ElementValue")])])),
  ("Annotation", fun _ => (.diagram [(.choice 0 [(.nonTerminal "NormalAnnotation"), (.nonTerminal "MarkerAnnotation"), (.nonTerminal "SingleElementAnnotation")])])),
  ("NormalAnnotation", fun _ => (.diagram [(.sequence [(.terminal "@"), (.nonTerminal "TypeName"), (.terminal "("), (.optional (.nonTerminal "ElementValuePairList")), (.terminal ")")])])),
  ("ElementValuePairList", fun _ => (.diagram [(.sequence [(.nonTerminal "ElementValuePair"), (.zeroOrMore (.sequence [(.terminal ","), (.nonTerminal "ElementValuePair")]))])])),
  ("ElementValuePair", fun _ => (.diagram [(.sequence [(.nonTerminal "Identifier"), (.terminal "="), (.nonTerminal "ElementValue")])])),
  ("ElementValue", fun _ => (.diagram [(.choice 0 [(.nonTerminal "ConditionalExpression"), (.nonTerminal "ElementValueArrayInitializer"), (.nonTerminal "Annotation")])])),
  ("ElementValueArrayInitializer", fun _ => (.diagram [(.sequence [(.terminal "\x7b"), (.optional (.nonTerminal "ElementValueList")), (.optional (.terminal ",")), (.terminal "\x7d")])])),
  ("ElementValueList", fun _ => (.diagram [(.sequence [(.nonTerminal "ElementValue"), (.zeroOrMore (.sequence [(.terminal ","), (.nonTerminal "ElementValue")]))])])),
  ("MarkerAnnotation", fun _ => (.diagram [(.sequence [(.terminal "@"), (.nonTerminal "TypeName")])])),
  ("SingleElementAnnotation", fun _ => (.diagram [(.sequence [(.terminal "@"), (.nonTerminal "TypeName"), (.terminal "("), (.nonTerminal "ElementValue"), (.terminal ")")])])),
  ("ArrayInitializer", fun _ => (.diagram [(.sequence [(.terminal "\x7b"), (.optional (.nonTerminal "VariableInitializerList")), (.optional (.terminal ",")), (.terminal "\x7d")])])),
  ("VariableInitializerList", fun _ => (.diagram [(.sequence [(.nonTerminal "VariableInitializer"), (.zeroOrMore (.sequence [(.terminal ","), (.nonTerminal "VariableInitializer")]))])])),
  ("Block", fun _ => (.diagram [(.sequence [(.terminal "\x7b"), (.optional (.nonTerminal "BlockStatements")), (.terminal "\x7d")])])),
  ("BlockStatements", fun _ => (.diagram [(.oneOrMore (.nonTerminal "BlockStatement"))])),
  ("BlockStatement", fun _ => (.diagram [(.choice 0 [(.nonTerminal "LocalClassOrInterfaceDeclaration"), (.nonTerminal "LocalVariableDeclarationStatement"), (.nonTerminal "Statement")])])),
  ("LocalClassOrInterfaceDeclaration", fun _ => (.diagram [(.choice 0 [(.nonTerminal "ClassDeclaration"), (.nonTerminal "NormalInterfaceDeclaration")])])),
  ("LocalVariableDeclarationStatement", fun _ => (.diagram [(.sequence [(.nonTerminal "LocalVariableDeclaration"), (.terminal ";")])])),
  ("LocalVariableDeclaration", fun _ => (.diagram [(.sequence [(.zeroOrMore (.nonTerminal "VariableModifier")), (.nonTerminal "LocalVariableType"), (.nonTerminal "VariableDeclaratorList")])])),
  ("LocalVariableType", fun _ => (.diagram [(.choice 0 [(.nonTerminal "UnannType"), (.terminal "var")])])),
  ("Statement", fun _ => (.diagram [(.choice 0 [(.nonTerminal "StatementWithoutTrailingSubstatement"), (.nonTerminal "LabeledStatement"), (.nonTerminal "IfThenStatement"), (.nonTerminal "IfThenElseStatement"), (.nonTerminal "WhileStatement"), (.nonTerminal "ForStatement")])])),
  ("StatementNoShortIf", fun _ => (.diagram [(.choice 0 [(.nonTerminal "StatementWithoutTrailingSubstatement"), (.nonTerminal "LabeledStatementNoShortIf"), (.nonTerminal "IfThenElseStatementNoShortIf"), (.nonTerminal "WhileStatementNoShortIf"), (.nonTerminal "ForStatementNoShortIf")])])),
  ("StatementWithoutTrailingSubstatement", fun _ => (.diagram [(.choice 0 [(.nonTerminal "Block"), (.nonTerminal "EmptyStatement"), (.nonTerminal "ExpressionStatement"), (.nonTerminal "AssertStatement"), (.nonTerminal "SwitchStatement"), (.nonTerminal "DoStatement"), (.nonTerminal "BreakStatement"), (.nonTerminal "ContinueStatement"), (.nonTerminal "ReturnStatement"), (.nonTerminal "SynchronizedStatement"), (.nonTerminal "ThrowStatement"), (.nonTerminal "TryStatement"), (.nonTerminal "YieldStatement")])])),
  ("EmptyStatement", fun _ => (.diagram [(.terminal ";")])),
  ("LabeledStatement", fun _ => (.diagram [(.sequence [(.nonTerminal "Identifier"), (.terminal ":"), (.nonTerminal "Statement")])])),
  ("LabeledStatementNoShortIf", fun _ => (.diagram [(.sequence [(.nonTerminal "Identifier"), (.terminal ":"), (.nonTerminal "StatementNoShortIf")])])),
  ("ExpressionStatement", fun _ => (.diagram [(.sequence [(.nonTerminal "StatementExpression"), (.terminal ";")])])),
  ("StatementExpression", fun _ => (.diagram [(.choice 0 [(.nonTerminal "Assignment"), (.nonTerminal "PreIncrementExpression"), (.nonTerminal "PreDecrementExpression"), (.nonTerminal "PostIncrementExpression"), (.nonTerminal "PostDecrementExpression"), (.nonTerminal "MethodInvocation"), (.nonTerminal "ClassInstanceCreationExpression")])])),
  ("IfThenStatement", fun _ => (.diagram [(.sequence [(.terminal "if"), (.terminal "("), (.nonTerminal "Expression"), (.terminal ")"), (.nonTerminal "Statement")])])),
  ("IfThenElseStatement", fun _ => (.diagram [(.sequence [(.terminal "if"), (.terminal "("), (.nonTerminal "Expression"), (.terminal ")"), (.nonTerminal "StatementNoShortIf"), (.terminal "else"), (.nonTerminal "Statement")])])),
  ("IfThenElseStatementNoShortIf", fun _ => (.diagram [(.sequence [(.terminal "if"), (.terminal "("), (.nonTerminal "Expression"), (.terminal ")"), (.nonTerminal "StatementNoShortIf"), (.terminal "else"), (.nonTerminal "StatementNoShortIf")])])),
  ("AssertStatement", fun _ => (.diagram [(.choice 0 [(.sequence [(.terminal "assert"), (.nonTerminal "Expression"), (.terminal ";")]), (.sequence [(.terminal "assert"), (.nonTerminal "Expression"), (.terminal ":"), (.nonTerminal "Expression"), (.terminal ";")])])])),
  ("SwitchStatement", fun _ => (.diagram [(.sequence [(.terminal "switch"), (.terminal "("), (.nonTerminal "Expression"), (.terminal ")"), (.nonTerminal "SwitchBlock")])]))
]

def rulesJavac4 : List (String × (Unit → RRNode)) := [
  ("SwitchBlock", fun _ => (.diagram [(.choice 0 [(.sequence [(.terminal "\x7b"), (.oneOrMore (.nonTerminal "SwitchRule")), (.terminal "\x7d")]), (.sequence [(.terminal "\x7b"), (.zeroOrMore (.nonTerminal "SwitchBlockStatementGroup")), (.zeroOrMore (.sequence [(.nonTerminal "SwitchLabel"), (.terminal ":")])), (.terminal "\x7d")])])])),
  ("SwitchRule", fun _ => (.diagram [(.choice 0 [(.sequence [(.nonTerminal "SwitchLabel"), (.terminal "->"), (.nonTerminal "Expression"), (.terminal ";")]), (.sequence [(.nonTerminal "SwitchLabel"), (.terminal "->"), (.nonTerminal "Block")]), (.sequence [(.nonTerminal "SwitchLabel"), (.terminal "->"), (.nonTerminal "ThrowStatement")])])])),
  ("SwitchBlockStatementGroup", fun _ => (.diagram [(.sequence [(.nonTerminal "SwitchLabel"), (.terminal ":"), (.zeroOrMore (.sequence [(.nonTerminal "SwitchLabel"), (.terminal ":")])), (.nonTerminal "BlockStatements")])])),
  ("SwitchLabel", fun _ => (.diagram [(.choice 0 [(.sequence [(.terminal "case"), (.nonTerminal "CaseConstant"), (.zeroOrMore (.sequence [(.terminal ","), (.nonTerminal "CaseConstant")]))]), (.sequence [(.terminal "case"), (.terminal "null"), (.optional (.sequence [(.terminal ","), (.terminal "default")]))]), (.sequence [(.terminal "case"), (.nonTerminal "CasePattern"), (.zeroOrMore (.sequence [(.terminal ","), (.nonTerminal "CasePattern")])), (.optional (.nonTerminal "Guard"))]), (.terminal "default")])])),
  ("CaseConstant", fun _ => (.diagram [(.nonTerminal "ConditionalExpression")])),
  ("CasePattern", fun _ => (.diagram [(.nonTerminal "Pattern")])),
  ("Guard", fun _ => (.diagram [(.sequence [(.terminal "when"), (.nonTerminal "Expression")])])),
  ("WhileStatement", fun _ => (.diagram [(.sequence [(.terminal "while"), (.terminal "("), (.nonTerminal "Expression"), (.terminal ")"), (.nonTerminal "Statement")])])),
  ("WhileStatementNoShortIf", fun _ => (.diagram [(.sequence [(.terminal "while"), (.terminal "("), (.nonTerminal "Expression"), (.terminal ")"), (.nonTerminal "StatementNoShortIf")])])),
  ("DoStatement", fun _ => (.diagram [(.sequence [(.terminal "do"), (.nonTerminal "Statement"), (.terminal "while"), (.terminal "("), (.nonTerminal "Expression"), (.terminal ")"), (.terminal ";")])])),
  ("ForStatement", fun _ => (.diagram [(.choice 0 [(.nonTerminal "BasicForStatement"), (.nonTerminal "EnhancedForStatement")])])),
  ("ForStatementNoShortIf", fun _ => (.diagram [(.choice 0 [(.nonTerminal "BasicForStatementNoShortIf"), (.nonTerminal "EnhancedForStatementNoShortIf")])])),
  ("BasicForStatement", fun _ => (.diagram [(.sequence [(.terminal "for"), (.terminal "("), (.optional (.nonTerminal "ForInit")), (.terminal ";"), (.optional (.nonTerminal "Expression")), (.terminal ";"), (.optional (.nonTerminal "ForUpdate")), (.terminal ")"), (.nonTerminal "Statement")])])),
  ("BasicForStatementNoShortIf", fun _ => (.diagram [(.sequence [(.terminal "for"), (.terminal "("), (.optional (.nonTerminal "ForInit")), (.terminal ";"), (.optional (.nonTerminal "Expression")), (.terminal ";"), (.optional (.nonTerminal "ForUpdate")), (.terminal ")"), (.nonTerminal "StatementNoShortIf")])])),
  ("ForInit", fun _ => (.diagram [(.choice 0 [(.nonTerminal "StatementExpressionList"), (.nonTerminal "LocalVariableDeclaration")])])),
  ("ForUpdate", fun _ => (.diagram [(.nonTerminal "StatementExpressionList")])),
  ("StatementExpressionList", fun _ => (.diagram [(.sequence [(.nonTerminal "StatementExpression"), (.zeroOrMore (.sequence [(.terminal ","), (.nonTerminal "StatementExpression")]))])])),
  ("EnhancedForStatement", fun _ => (.diagram [(.sequence [(.terminal "for"), (.terminal "("), (.nonTerminal "LocalVariableDeclaration"), (.terminal ":"), (.nonTerminal "Expression"), (.terminal ")"), (.nonTerminal "Statement")])])),
  ("EnhancedForStatementNoShortIf", fun _ => (.diagram [(.sequence [(.terminal "for"), (.terminal "("), (.nonTerminal "LocalVariableDeclaration"), (.terminal ":"), (.nonTerminal "Expression"), (.terminal ")"), (.nonTerminal "StatementNoShortIf")])])),
  ("BreakStatement", fun _ => (.diagram [(.sequence [(.terminal "break"), (.optional (.nonTerminal "Identifier")), (.terminal ";")])])),
  ("YieldStatement", fun _ => (.diagram [(.sequence [(.terminal "yield"), (.nonTerminal "Expression"), (.terminal ";")])])),
  ("ContinueStatement", fun _ => (.diagram [(.sequence [(.terminal "continue"), (.optional (.nonTerminal "Identifier")), (.terminal ";")])])),
  ("ReturnStatement", fun _ => (.diagram [(.sequence [(.terminal "return"), (.optional (.nonTerminal "Expression")), (.terminal ";")])])),
  ("ThrowStatement", fun _ => (.diagram [(.sequence [(.terminal "throw"), (.nonTerminal "Expression"), (.terminal ";")])])),
  ("SynchronizedStatement", fun _ => (.diagram [(.sequence [(.terminal "synchronized"), (.terminal "("), (.nonTerminal "Expression"), (.terminal ")"), (.nonTerminal "Block")])])),
  ("TryStatement", fun _ => (.diagram [(.choice 0 [(.sequence [(.terminal "try"), (.nonTerminal "Block"), (.nonTerminal "Catches")]), (.sequence [(.terminal "try"), (.nonTerminal "Block"), (.optional (.nonTerminal "Catches")), (.nonTerminal "Finally")]), (.nonTerminal "TryWithResourcesStatement")])])),
  ("Catches", fun _ => (.diagram [(.oneOrMore (.nonTerminal "CatchClause"))])),
  ("CatchClause", fun _ => (.diagram [(.sequence [(.terminal "catch"), (.terminal "("), (.nonTerminal "CatchFormalParameter"), (.terminal ")"), (.nonTerminal "Block")])])),
  ("CatchFormalParameter", fun _ => (.diagram [(.sequence [(.zeroOrMore (.nonTerminal "VariableModifier")), (.nonTerminal "CatchType"), (.nonTerminal "VariableDeclaratorId")])])),
  ("CatchType", fun _ => (.diagram [(.sequence [(.nonTerminal "UnannClassType"), (.zeroOrMore (.sequence [(.terminal "|"), (.nonTerminal "ClassType")]))])])),
  ("Finally", fun _ => (.diagram [(.sequence [(.terminal "finally"), (.nonTerminal "Block")])])),
  ("TryWithResourcesStatement", fun _ => (.diagram [(.sequence [(.terminal "try"), (.nonTerminal "ResourceSpecification"), (.nonTerminal "Block"), (.optional (.nonTerminal "Catches")), (.optional (.nonTerminal "Finally"))])])),
  ("ResourceSpecification", fun _ => (.diagram [(.sequence [(.terminal "("), (.nonTerminal "ResourceList"), (.optional (.terminal ";")), (.terminal ")")])])),
  ("ResourceList", fun _ => (.diagram [(.sequence [(.nonTerminal "Resource"), (.zeroOrMore (.sequence [(.terminal ";"), (.nonTerminal "Resource")]))])])),
  ("Resource", fun _ => (.diagram [(.choice 0 [(.nonTerminal "LocalVariableDeclaration"), (.nonTerminal "VariableAccess")])])),
  ("VariableAccess", fun _ => (.diagram [(.choice 0 [(.nonTerminal "ExpressionName"), (.nonTerminal "FieldAccess")])])),
  ("Pattern", fun _ => (.diagram [(.choice 0 [(.nonTerminal "TypePattern"), (.nonTerminal "RecordPattern")])])),
  ("TypePattern", fun _ => (.diagram [(.nonTerminal "LocalVariableDeclaration")])),
  ("RecordPattern", fun _ => (.diagram [(.sequence [(.nonTerminal "ReferenceType"), (.terminal "("), (.optional (.nonTerminal "ComponentPatternList")), (.terminal ")")])])),
  ("ComponentPatternList", fun _ => (.diagram [(.sequence [(.nonTerminal "ComponentPattern"), (.zeroOrMore (.sequence [(.terminal ","), (.nonTerminal "ComponentPattern")]))])]))
]

def rulesJavac5 : List (String × (Unit → RRNode)) := [
  ("ComponentPattern", fun _ => (.diagram [(.choice 0 [(.nonTerminal "Pattern"), (.nonTerminal "MatchAllPattern")])])),
  ("MatchAllPattern", fun _ => (.diagram [(.terminal "_")])),
  ("Primary", fun _ => (.diagram [(.choice 0 [(.nonTerminal "PrimaryNoNewArray"), (.nonTerminal "ArrayCreationExpression")])])),
  ("PrimaryNoNewArray", fun _ => (.diagram [(.choice 0 [(.nonTerminal "Literal"), (.nonTerminal "ClassLiteral"), (.terminal "this"), (.sequence [(.nonTerminal "TypeName"), (.terminal "."), (.terminal "this")]), (.sequence [(.terminal "("), (.nonTerminal "Expression"), (.terminal ")")]), (.nonTerminal "ClassInstanceCreationExpression"), (.nonTerminal "FieldAccess"), (.nonTerminal "ArrayAccess"), (.nonTerminal "MethodInvocation"), (.nonTerminal "MethodReference")])])),
  ("ClassLiteral", fun _ => (.diagram [(.choice 0 [(.sequence [(.nonTerminal "TypeName"), (.zeroOrMore (.sequence [(.terminal "["), (.terminal "]")])), (.terminal "."), (.terminal "class")]), (.sequence [(.nonTerminal "NumericType"), (.zeroOrMore (.sequence [(.terminal "["), (.terminal "]")])), (.terminal "."), (.terminal "class")]), (.sequence [(.terminal "boolean"), (.zeroOrMore (.sequence [(.terminal "["), (.terminal "]")])), (.terminal "."), (.terminal "class")]), (.sequence [(.terminal "void"), (.terminal "."), (.terminal "class")])])])),
  ("ClassInstanceCreationExpression", fun _ => (.diagram [(.choice 0 [(.nonTerminal "UnqualifiedClassInstanceCreationExpression"), (.sequence [(.nonTerminal "ExpressionName"), (.terminal "."), (.nonTerminal "UnqualifiedClassInstanceCreationExpression")]), (.sequence [(.nonTerminal "Primary"), (.terminal "."), (.nonTerminal "UnqualifiedClassInstanceCreationExpression")])])])),
  ("UnqualifiedClassInstanceCreationExpression", fun _ => (.diagram [(.sequence [(.terminal "new"), (.optional (.nonTerminal "TypeArguments")), (.nonTerminal "ClassOrInterfaceTypeToInstantiate"), (.terminal "("), (.optional (.nonTerminal "ArgumentList")), (.terminal ")"), (.optional (.nonTerminal "ClassBody"))])])),
  ("ClassOrInterfaceTypeToInstantiate", fun _ => (.diagram [(.sequence [(.zeroOrMore (.nonTerminal "Annotation")), (.nonTerminal "Identifier"), (.zeroOrMore (.sequence [(.terminal "."), (.zeroOrMore (.nonTerminal "Annotation")), (.nonTerminal "Identifier")])), (.optional (.nonTerminal "TypeArgumentsOrDiamond"))])])),
  ("TypeArgumentsOrDiamond", fun _ => (.diagram [(.choice 0 [(.nonTerminal "TypeArguments"), (.sequence [(.terminal "<"), (.terminal ">")])])])),
  ("ArrayCreationExpression", fun _ => (.diagram [(.choice 0 [(.nonTerminal "ArrayCreationExpressionWithoutInitializer"), (.nonTerminal "ArrayCreationExpressionWithInitializer")])])),
  ("ArrayCreationExpressionWithoutInitializer", fun _ => (.diagram [(.choice 0 [(.sequence [(.terminal "new"), (.nonTerminal "PrimitiveType"), (.nonTerminal "DimExprs"), (.optional (.nonTerminal "Dims"))]), (.sequence [(.terminal "new"), (.nonTerminal "ClassOrInterfaceType"), (.nonTerminal "DimExprs"), (.optional (.nonTerminal "Dims"))])])])),
  ("ArrayCreationExpressionWithInitializer", fun _ => (.diagram [(.choice 0 [(.sequence [(.terminal "new"), (.nonTerminal "PrimitiveType"), (.nonTerminal "Dims"), (.nonTerminal "ArrayInitializer")]), (.sequence [(.terminal "new"), (.nonTerminal "ClassOrInterfaceType"), (.nonTerminal "Dims"), (.nonTerminal "ArrayInitializer")])])])),
  ("DimExprs", fun _ => (.diagram [(.oneOrMore (.nonTerminal "DimExpr"))])),
  ("DimExpr", fun _ => (.diagram [(.sequence [(.zeroOrMore (.nonTerminal "Annotation")), (.terminal "["), (.nonTerminal "Expression"), (.terminal "]")])])),
  ("ArrayAccess", fun _ => (.diagram [(.choice 0 [(.sequence [(.nonTerminal "ExpressionName"), (.terminal "["), (.nonTerminal "Expression"), (.terminal "]")]), (.sequence [(.nonTerminal "PrimaryNoNewArray"), (.terminal "["), (.nonTerminal "Expression"), (.terminal "]")]), (.sequence [(.nonTerminal "ArrayCreationExpressionWithInitializer"), (.terminal "["), (.nonTerminal "Expression"), (.terminal "]")])])])),
  ("FieldAccess", fun _ => (.diagram [(.choice 0 [(.sequence [(.nonTerminal "Primary"), (.terminal "."), (.nonTerminal "Identifier")]), (.sequence [(.terminal "super"), (.terminal "."), (.nonTerminal "Identifier")]), (.sequence [(.nonTerminal "TypeName"), (.terminal "."), (.terminal "super"), (.terminal "."), (.nonTerminal "Identifier")])])])),
  ("MethodInvocation", fun _ => (.diagram [(.choice 0 [(.sequence [(.nonTerminal "MethodName"), (.terminal "("), (.optional (.nonTerminal "ArgumentList")), (.terminal ")")]), (.sequence [(.nonTerminal "TypeName"), (.terminal "."), (.optional (.nonTerminal "TypeArguments")), (.nonTerminal "Identifier"), (.terminal "("), (.optional (.nonTerminal "ArgumentList")), (.terminal ")")]), (.sequence [(.nonTerminal "ExpressionName"), (.terminal "."), (.optional (.nonTerminal "TypeArguments")), (.nonTerminal "Identifier"), (.terminal "("), (.optional (.nonTerminal "ArgumentList")), (.terminal ")")]), (.sequence [(.nonTerminal "Primary"), (.terminal "."), (.optional (.nonTerminal "TypeArguments")), (.nonTerminal "Identifier"), (.terminal "("), (.optional (.nonTerminal "ArgumentList")), (.terminal ")")]), (.sequence [(.terminal "super"), (.terminal "."), (.optional (.nonTerminal "TypeArguments")), (.nonTerminal "Identifier"), (.terminal "("), (.optional (.nonTerminal "ArgumentList")), (.terminal ")")]), (.sequence [(.nonTerminal "TypeName"), (.terminal "."), (.terminal "super"), (.terminal "."), (.optional (.nonTerminal "TypeArguments")), (.nonTerminal "Identifier"), (.terminal "("), (.optional (.nonTerminal "ArgumentList")), (.terminal ")")])])])),
  ("ArgumentList", fun _ => (.diagram [(.sequence [(.nonTerminal "Expression"), (.zeroOrMore (.sequence [(.terminal ","), (.nonTerminal "Expression")]))])])),
  ("MethodReference", fun _ => (.diagram [(.choice 0 [(.sequence [(.nonTerminal "ExpressionName"), (.terminal "::"), (.optional (.nonTerminal "TypeArguments")), (.nonTerminal "Identifier")]), (.sequence [(.nonTerminal "Primary"), (.terminal "::"), (.optional (.nonTerminal "TypeArguments")), (.nonTerminal "Identifier")]), (.sequence [(.nonTerminal "ReferenceType"), (.terminal "::"), (.optional (.nonTerminal "TypeArguments")), (.nonTerminal "Identifier")]), (.sequence [(.terminal "super"), (.terminal "::"), (.optional (.nonTerminal "TypeArguments")), (.nonTerminal "Identifier")]), (.sequence [(.nonTerminal "TypeName"), (.terminal "."), (.terminal "super"), (.terminal "::"), (.optional (.nonTerminal "TypeArguments")), (.nonTerminal "Identifier")]), (.sequence [(.nonTerminal "ClassType"), (.terminal "::"), (.optional (.nonTerminal "TypeArguments")), (.terminal "new")]), (.sequence [(.nonTerminal "ArrayType"), (.terminal "::"), (.terminal "new")])])])),
  ("Expression", fun _ => (.diagram [(.choice 0 [(.nonTerminal "LambdaExpression"), (.nonTerminal "AssignmentExpression")])])),
  ("LambdaExpression", fun _ => (.diagram [(.sequence [(.nonTerminal "LambdaParameters"), (.terminal "->"), (.nonTerminal "LambdaBody")])])),
  ("LambdaParameters", fun _ => (.diagram [(.choice 0 [(.sequence [(.terminal "("), (.optional (.nonTerminal "LambdaParameterList")), (.terminal ")")]), (.nonTerminal "ConciseLambdaParameter")])])),
  ("LambdaParameterList", fun _ => (.diagram [(.choice 0 [(.sequence [(.nonTerminal "NormalLambdaParameter"), (.zeroOrMore (.sequence [(.terminal ","), (.nonTerminal "NormalLambdaParameter")]))]), (.sequence [(.nonTerminal "ConciseLambdaParameter"), (.zeroOrMore (.sequence [(.terminal ","), (.nonTerminal "ConciseLambdaParameter")]))])])])),
  ("NormalLambdaParameter", fun _ => (.diagram [(.choice 0 [(.sequence [(.zeroOrMore (.nonTerminal "VariableModifier")), (.nonTerminal "LambdaParameterType"), (.nonTerminal "VariableDeclaratorId")]), (.nonTerminal "VariableArityParameter")])])),
  ("LambdaParameterType", fun _ => (.diagram [(.choice 0 [(.nonTerminal "UnannType"), (.terminal "var")])])),
  ("ConciseLambdaParameter", fun _ => (.diagram [(.choice 0 [(.nonTerminal "Identifier"), (.terminal "_")])])),
  ("LambdaBody", fun _ => (.diagram [(.choice 0 [(.nonTerminal "Expression"), (.nonTerminal "Block")])])),
  ("AssignmentExpression", fun _ => (.diagram [(.choice 0 [(.nonTerminal "ConditionalExpression"), (.nonTerminal "Assignment")])])),
  ("Assignment", fun _ => (.diagram [(.sequence [(.nonTerminal "LeftHandSide"), (.nonTerminal "AssignmentOperator"), (.nonTerminal "Expression")])])),
  ("LeftHandSide", fun _ => (.diagram [(.choice 0 [(.nonTerminal "ExpressionName"), (.nonTerminal "FieldAccess"), (.nonTerminal "ArrayAccess")])])),
  ("AssignmentOperator", fun _ => (.diagram [(.choice 0 [(.terminal "="), (.terminal "*="), (.terminal "/="), (.terminal "%="), (.terminal "+="), (.terminal "-="), (.terminal "<<="), (.terminal ">>="), (.terminal ">>>="), (.terminal "&="), (.terminal "^="), (.terminal "|=")])])),
  ("ConditionalExpression", fun _ => (.diagram [(.choice 0 [(.nonTerminal "ConditionalOrExpression"), (.sequence [(.nonTerminal "ConditionalOrExpression"), (.terminal "?"), (.nonTerminal "Expression"), (.terminal ":"), (.nonTerminal "ConditionalExpression")]), (.sequence [(.nonTerminal "ConditionalOrExpression"), (.terminal "?"), (.nonTerminal "Expression"), (.terminal ":"), (.nonTerminal "LambdaExpression")])])])),
  ("ConditionalOrExpression", fun _ => (.diagram [(chain "ConditionalAndExpression" ["||"])])),
  ("ConditionalAndExpression", fun _ => (.diagram [(chain "InclusiveOrExpression" ["&&"])])),
  ("InclusiveOrExpression", fun _ => (.diagram [(chain "ExclusiveOrExpression" ["|"])])),
  ("ExclusiveOrExpression", fun _ => (.diagram [(chain "AndExpression" ["^"])])),
  ("AndExpression", fun _ => (.diagram [(chain "EqualityExpression" ["&"])])),
  ("EqualityExpression", fun _ => (.diagram [(chain "RelationalExpression" ["==", "!="])])),
  ("RelationalExpression", fun _ => (.diagram [(.choice 0 [(chain "ShiftExpression" ["<", ">", "<=", ">="]), (.nonTerminal "InstanceofExpression")])])),
  ("InstanceofExpression", fun _ => (.diagram [(.choice 0 [(.sequence [(.nonTerminal "RelationalExpression"), (.terminal "instanceof"), (.nonTerminal "ReferenceType")]), (.sequence [(.nonTerminal "RelationalExpression"), (.terminal "instanceof"), (.nonTerminal "Pattern")])])]))
]

def rulesJavac6 : List (String × (Unit → RRNode)) := [
  ("ShiftExpression", fun _ => (.diagram [(chain "AdditiveExpression" ["<<", ">>", ">>>"])])),
  ("AdditiveExpression", fun _ => (.diagram [(chain "MultiplicativeExpression" ["+", "-"])])),
  ("MultiplicativeExpression", fun _ => (.diagram [(chain "UnaryExpression" ["*", "/", "%"])])),
  ("UnaryExpression", fun _ => (.diagram [(.choice 0 [(.nonTerminal "PreIncrementExpression"), (.nonTerminal "PreDecrementExpression"), (.sequence [(.terminal "+"), (.nonTerminal "UnaryExpression")]), (.sequence [(.terminal "-"), (.nonTerminal "UnaryExpression")]), (.nonTerminal "UnaryExpressionNotPlusMinus")])])),
  ("PreIncrementExpression", fun _ => (.diagram [(.sequence [(.terminal "++"), (.nonTerminal "UnaryExpression")])])),
  ("PreDecrementExpression", fun _ => (.diagram [(.sequence [(.terminal "--"), (.nonTerminal "UnaryExpression")])])),
  ("UnaryExpressionNotPlusMinus", fun _ => (.diagram [(.choice 0 [(.nonTerminal "PostfixExpression"), (.sequence [(.terminal "~"), (.nonTerminal "UnaryExpression")]), (.sequence [(.terminal "!"), (.nonTerminal "UnaryExpression")]), (.nonTerminal "CastExpression"), (.nonTerminal "SwitchExpression")])])),
  ("PostfixExpression", fun _ => (.diagram [(.choice 0 [(.nonTerminal "Primary"), (.nonTerminal "ExpressionName"), (.nonTerminal "PostIncrementExpression"), (.nonTerminal "PostDecrementExpression")])])),
  ("PostIncrementExpression", fun _ => (.diagram [(.sequence [(.nonTerminal "PostfixExpression"), (.terminal "++")])])),
  ("PostDecrementExpression", fun _ => (.diagram [(.sequence [(.nonTerminal "PostfixExpression"), (.terminal "--")])])),
  ("CastExpression", fun _ => (.diagram [(.choice 0 [(.sequence [(.terminal "("), (.nonTerminal "PrimitiveType"), (.terminal ")"), (.nonTerminal "UnaryExpression")]), (.sequence [(.terminal "("), (.nonTerminal "ReferenceType"), (.zeroOrMore (.nonTerminal "AdditionalBound")), (.terminal ")"), (.nonTerminal "UnaryExpressionNotPlusMinus")]), (.sequence [(.terminal "("), (.nonTerminal "ReferenceType"), (.zeroOrMore (.nonTerminal "AdditionalBound")), (.terminal ")"), (.nonTerminal "LambdaExpression")])])])),
  ("SwitchExpression", fun _ => (.diagram [(.sequence [(.terminal "switch"), (.terminal "("), (.nonTerminal "Expression"), (.terminal ")"), (.nonTerminal "SwitchBlock")])]))
]

def rulesJava : List (String × (Unit → RRNode)) :=
  rulesJavac0 ++ rulesJavac1 ++ rulesJavac2 ++ rulesJavac3 ++ rulesJavac4 ++ rulesJavac5 ++ rulesJavac6

def rulesSetMatches25 : List String := [
  "Identifier", "IdentifierChars", "JavaLetter", "JavaLetterOrDigit", "TypeIdentifier", "UnqualifiedMethodIdentifier",
  "Literal", "Type", "PrimitiveType", "NumericType", "IntegralType", "FloatingPointType",
  "ReferenceType", "ClassOrInterfaceType", "ClassType", "InterfaceType", "TypeVariable", "ArrayType",
  "Dims", "TypeParameter", "TypeParameterModifier", "TypeBound", "AdditionalBound", "TypeArguments",
  "TypeArgumentList", "TypeArgument", "Wildcard", "WildcardBounds", "ModuleName", "PackageName",
  "TypeName", "ExpressionName", "MethodName", "PackageOrTypeName", "AmbiguousName", "CompilationUnit",
  "OrdinaryCompilationUnit", "ModularCompilationUnit", "PackageDeclaration", "PackageModifier", "ImportDeclaration", "SingleTypeImportDeclaration",
  "TypeImportOnDemandDeclaration", "SingleStaticImportDeclaration", "StaticImportOnDemandDeclaration", "SingleModuleImportDeclaration", "TopLevelClassOrInterfaceDeclaration", "ModuleDeclaration",
  "ModuleDirective", "RequiresModifier", "ClassDeclaration", "NormalClassDeclaration", "ClassModifier", "TypeParameters",
  "TypeParameterList", "ClassExtends", "ClassImplements", "InterfaceTypeList", "ClassPermits", "ClassBody",
  "ClassBodyDeclaration", "ClassMemberDeclaration", "FieldDeclaration", "FieldModifier", "VariableDeclaratorList", "VariableDeclarator",
  "VariableDeclaratorId", "VariableInitializer", "UnannType", "UnannPrimitiveType", "UnannReferenceType", "UnannClassOrInterfaceType",
  "UnannClassType", "UnannInterfaceType", "UnannTypeVariable", "UnannArrayType", "MethodDeclaration", "MethodModifier",
  "MethodHeader", "Result", "MethodDeclarator", "ReceiverParameter", "FormalParameterList", "FormalParameter",
  "VariableArityParameter", "VariableModifier", "Throws", "ExceptionTypeList", "ExceptionType", "MethodBody",
  "InstanceInitializer", "StaticInitializer", "ConstructorDeclaration", "ConstructorModifier", "ConstructorDeclarator", "SimpleTypeName",
  "ConstructorBody", "ConstructorInvocation", "EnumDeclaration", "EnumBody", "EnumConstantList", "EnumConstant",
  "EnumConstantModifier", "EnumBodyDeclarations", "RecordDeclaration", "RecordHeader", "RecordComponentList", "RecordComponent",
  "VariableArityRecordComponent", "RecordComponentModifier", "RecordBody", "RecordBodyDeclaration", "CompactConstructorDeclaration", "InterfaceDeclaration",
  "NormalInterfaceDeclaration", "InterfaceModifier", "InterfaceExtends", "InterfacePermits", "InterfaceBody", "InterfaceMemberDeclaration",
  "ConstantDeclaration", "ConstantModifier", "InterfaceMethodDeclaration", "InterfaceMethodModifier", "AnnotationInterfaceDeclaration", "AnnotationInterfaceBody",
  "AnnotationInterfaceMemberDeclaration", "AnnotationInterfaceElementDeclaration", "AnnotationInterfaceElementModifier", "DefaultValue", "Annotation", "NormalAnnotation",
  "ElementValuePairList", "ElementValuePair", "ElementValue", "ElementValueArrayInitializer", "ElementValueList", "MarkerAnnotation",
  "SingleElementAnnotation", "ArrayInitializer", "VariableInitializerList", "Block", "BlockStatements", "BlockStatement",
  "LocalClassOrInterfaceDeclaration", "LocalVariableDeclarationStatement", "LocalVariableDeclaration", "LocalVariableType", "Statement", "StatementNoShortIf",
  "StatementWithoutTrailingSubstatement", "EmptyStatement", "LabeledStatement", "LabeledStatementNoShortIf", "ExpressionStatement", "StatementExpression",
  "IfThenStatement", "IfThenElseStatement", "IfThenElseStatementNoShortIf", "AssertStatement", "SwitchStatement", "SwitchBlock",
  "SwitchRule", "SwitchBlockStatementGroup", "SwitchLabel", "CaseConstant", "CasePattern", "Guard",
  "WhileStatement", "WhileStatementNoShortIf", "DoStatement", "ForStatement", "ForStatementNoShortIf", "BasicForStatement",
  "BasicForStatementNoShortIf", "ForInit", "ForUpdate", "StatementExpressionList", "EnhancedForStatement", "EnhancedForStatementNoShortIf",
  "BreakStatement", "YieldStatement", "ContinueStatement", "ReturnStatement", "ThrowStatement", "SynchronizedStatement",
  "TryStatement", "Catches", "CatchClause", "CatchFormalParameter", "CatchType", "Finally",
  "TryWithResourcesStatement", "ResourceSpecification", "ResourceList", "Resource", "VariableAccess", "Pattern",
  "TypePattern", "RecordPattern", "ComponentPatternList", "ComponentPattern", "MatchAllPattern", "Primary",
  "PrimaryNoNewArray", "ClassLiteral", "ClassInstanceCreationExpression", "UnqualifiedClassInstanceCreationExpression", "ClassOrInterfaceTypeToInstantiate", "TypeArgumentsOrDiamond",
  "ArrayCreationExpression", "ArrayCreationExpressionWithoutInitializer", "ArrayCreationExpressionWithInitializer", "DimExprs", "DimExpr", "ArrayAccess",
  "FieldAccess", "MethodInvocation", "ArgumentList", "MethodReference", "Expression", "LambdaExpression",
  "LambdaParameters", "LambdaParameterList", "NormalLambdaParameter", "LambdaParameterType", "ConciseLambdaParameter", "LambdaBody",
  "AssignmentExpression", "Assignment", "LeftHandSide", "AssignmentOperator", "ConditionalExpression", "ConditionalOrExpression",
  "ConditionalAndExpression", "InclusiveOrExpression", "ExclusiveOrExpression", "AndExpression", "EqualityExpression", "RelationalExpression",
  "InstanceofExpression", "ShiftExpression", "AdditiveExpression", "MultiplicativeExpression", "UnaryExpression", "PreIncrementExpression",
  "PreDecrementExpression", "UnaryExpressionNotPlusMinus", "PostfixExpression", "PostIncrementExpression", "PostDecrementExpression", "CastExpression",
  "SwitchExpression"
]

def ebnfKeyMatches : List String := [
  "Identifier", "IdentifierChars", "JavaLetter", "JavaLetterOrDigit", "TypeIdentifier", "UnqualifiedMethodIdentifier",
  "Literal", "Type", "PrimitiveType", "NumericType", "IntegralType", "FloatingPointType",
  "ReferenceType", "ClassOrInterfaceType", "ClassType", "InterfaceType", "TypeVariable", "ArrayType",
  "Dims", "TypeParameter", "TypeParameterModifier", "TypeBound", "AdditionalBound", "TypeArguments",
  "TypeArgumentList", "TypeArgument", "Wildcard", "WildcardBounds", "ModuleName", "PackageName",
  "TypeName", "ExpressionName", "MethodName", "PackageOrTypeName", "AmbiguousName", "CompilationUnit",
  "OrdinaryCompilationUnit", "ModularCompilationUnit", "PackageDeclaration", "PackageModifier", "ImportDeclaration", "SingleTypeImportDeclaration",
  "TypeImportOnDemandDeclaration", "SingleStaticImportDeclaration", "StaticImportOnDemandDeclaration", "SingleModuleImportDeclaration", "TopLevelClassOrInterfaceDeclaration", "ModuleDeclaration",
  "ModuleDirective", "RequiresModifier", "ClassDeclaration", "NormalClassDeclaration", "ClassModifier", "TypeParameters",
  "TypeParameterList", "ClassExtends", "ClassImplements", "InterfaceTypeList", "ClassPermits", "ClassBody",
  "ClassBodyDeclaration", "ClassMemberDeclaration", "FieldDeclaration", "FieldModifier", "VariableDeclaratorList", "VariableDeclarator",
  "VariableDeclaratorId", "VariableInitializer", "UnannType", "UnannPrimitiveType", "UnannReferenceType", "UnannClassOrInterfaceType",
  "UnannClassType", "UnannInterfaceType", "UnannTypeVariable", "UnannArrayType", "MethodDeclaration", "MethodModifier",
  "MethodHeader", "Result", "MethodDeclarator", "ReceiverParameter", "FormalParameterList", "FormalParameter",
  "VariableArityParameter", "VariableModifier", "Throws", "ExceptionTypeList", "ExceptionType", "MethodBody",
  "InstanceInitializer", "StaticInitializer", "ConstructorDeclaration", "ConstructorModifier", "ConstructorDeclarator", "SimpleTypeName",
  "ConstructorBody", "ConstructorInvocation", "EnumDeclaration", "EnumBody", "EnumConstantList", "EnumConstant",
  "EnumConstantModifier", "EnumBodyDeclarations", "RecordDeclaration", "RecordHeader", "RecordComponentList", "RecordComponent",
  "VariableArityRecordComponent", "RecordComponentModifier", "RecordBody", "RecordBodyDeclaration", "CompactConstructorDeclaration", "InterfaceDeclaration",
  "NormalInterfaceDeclaration", "InterfaceModifier", "InterfaceExtends", "InterfacePermits", "InterfaceBody", "InterfaceMemberDeclaration",
  "ConstantDeclaration", "ConstantModifier", "InterfaceMethodDeclaration", "InterfaceMethodModifier", "AnnotationInterfaceDeclaration", "AnnotationInterfaceBody",
  "AnnotationInterfaceMemberDeclaration", "AnnotationInterfaceElementDeclaration", "AnnotationInterfaceElementModifier", "DefaultValue", "Annotation", "NormalAnnotation",
  "ElementValuePairList", "ElementValuePair", "ElementValue", "ElementValueArrayInitializer", "ElementValueList", "MarkerAnnotation",
  "SingleElementAnnotation", "ArrayInitializer", "VariableInitializerList", "Block", "BlockStatements", "BlockStatement",
  "LocalClassOrInterfaceDeclaration", "LocalVariableDeclarationStatement", "LocalVariableDeclaration", "LocalVariableType", "Statement", "StatementNoShortIf",
  "StatementWithoutTrailingSubstatement", "EmptyStatement", "LabeledStatement", "LabeledStatementNoShortIf", "ExpressionStatement", "StatementExpression",
  "IfThenStatement", "IfThenElseStatement", "IfThenElseStatementNoShortIf", "AssertStatement", "SwitchStatement", "SwitchBlock",
  "SwitchRule", "SwitchBlockStatementGroup", "SwitchLabel", "CaseConstant", "CasePattern", "Guard",
  "WhileStatement", "WhileStatementNoShortIf", "DoStatement", "ForStatement", "ForStatementNoShortIf", "BasicForStatement",
  "BasicForStatementNoShortIf", "ForInit", "ForUpdate", "StatementExpressionList", "EnhancedForStatement", "EnhancedForStatementNoShortIf",
  "BreakStatement", "YieldStatement", "ContinueStatement", "ReturnStatement", "ThrowStatement", "SynchronizedStatement",
  "TryStatement", "Catches", "CatchClause", "CatchFormalParameter", "CatchType", "Finally",
  "TryWithResourcesStatement", "ResourceSpecification", "ResourceList", "Resource", "VariableAccess", "Pattern",
  "TypePattern", "RecordPattern", "ComponentPatternList", "ComponentPattern", "MatchAllPattern", "Primary",
  "PrimaryNoNewArray", "ClassLiteral", "ClassInstanceCreationExpression", "UnqualifiedClassInstanceCreationExpression", "ClassOrInterfaceTypeToInstantiate", "TypeArgumentsOrDiamond",
  "ArrayCreationExpression", "ArrayCreationExpressionWithoutInitializer", "ArrayCreationExpressionWithInitializer", "DimExprs", "DimExpr", "ArrayAccess",
  "FieldAccess", "MethodInvocation", "ArgumentList", "MethodReference", "Expression", "LambdaExpression",
  "LambdaParameters", "LambdaParameterList", "NormalLambdaParameter", "LambdaParameterType", "ConciseLambdaParameter", "LambdaBody",
  "AssignmentExpression", "Assignment", "LeftHandSide", "AssignmentOperator", "ConditionalExpression", "ConditionalOrExpression",
  "ConditionalAndExpression", "InclusiveOrExpression", "ExclusiveOrExpression", "AndExpression", "EqualityExpression", "RelationalExpression",
  "InstanceofExpression", "ShiftExpression", "AdditiveExpression", "MultiplicativeExpression", "UnaryExpression", "PreIncrementExpression",
  "PreDecrementExpression", "UnaryExpressionNotPlusMinus", "PostfixExpression", "PostIncrementExpression", "PostDecrementExpression", "CastExpression",
  "SwitchExpression"
]

def ebnfKeys : List String := [
  "Identifier", "IdentifierChars", "JavaLetter", "JavaLetterOrDigit", "TypeIdentifier", "UnqualifiedMethodIdentifier",
  "Literal", "Type", "PrimitiveType", "NumericType", "IntegralType", "FloatingPointType",
  "ReferenceType", "ClassOrInterfaceType", "ClassType", "InterfaceType", "TypeVariable", "ArrayType",
  "Dims", "TypeParameter", "TypeParameterModifier", "TypeBound", "AdditionalBound", "TypeArguments",
  "TypeArgumentList", "TypeArgument", "Wildcard", "WildcardBounds", "ModuleName", "PackageName",
  "TypeName", "ExpressionName", "MethodName", "PackageOrTypeName", "AmbiguousName", "CompilationUnit",
  "OrdinaryCompilationUnit", "ModularCompilationUnit", "PackageDeclaration", "PackageModifier", "ImportDeclaration", "SingleTypeImportDeclaration",
  "TypeImportOnDemandDeclaration", "SingleStaticImportDeclaration", "StaticImportOnDemandDeclaration", "SingleModuleImportDeclaration", "TopLevelClassOrInterfaceDeclaration", "ModuleDeclaration",
  "ModuleDirective", "RequiresModifier", "ClassDeclaration", "NormalClassDeclaration", "ClassModifier", "TypeParameters",
  "TypeParameterList", "ClassExtends", "ClassImplements", "InterfaceTypeList", "ClassPermits", "ClassBody",
  "ClassBodyDeclaration", "ClassMemberDeclaration", "FieldDeclaration", "FieldModifier", "VariableDeclaratorList", "VariableDeclarator",
  "VariableDeclaratorId", "VariableInitializer", "UnannType", "UnannPrimitiveType", "UnannReferenceType", "UnannClassOrInterfaceType",
  "UnannClassType", "UnannInterfaceType", "UnannTypeVariable", "UnannArrayType", "MethodDeclaration", "MethodModifier",
  "MethodHeader", "Result", "MethodDeclarator", "ReceiverParameter", "FormalParameterList", "FormalParameter",
  "VariableArityParameter", "VariableModifier", "Throws", "ExceptionTypeList", "ExceptionType", "MethodBody",
  "InstanceInitializer", "StaticInitializer", "ConstructorDeclaration", "ConstructorModifier", "ConstructorDeclarator", "SimpleTypeName",
  "ConstructorBody", "ConstructorInvocation", "EnumDeclaration", "EnumBody", "EnumConstantList", "EnumConstant",
  "EnumConstantModifier", "EnumBodyDeclarations", "RecordDeclaration", "RecordHeader", "RecordComponentList", "RecordComponent",
  "VariableArityRecordComponent", "RecordComponentModifier", "RecordBody", "RecordBodyDeclaration", "CompactConstructorDeclaration", "InterfaceDeclaration",
  "NormalInterfaceDeclaration", "InterfaceModifier", "InterfaceExtends", "InterfacePermits", "InterfaceBody", "InterfaceMemberDeclaration",
  "ConstantDeclaration", "ConstantModifier", "InterfaceMethodDeclaration", "InterfaceMethodModifier", "AnnotationInterfaceDeclaration", "AnnotationInterfaceBody",
  "AnnotationInterfaceMemberDeclaration", "AnnotationInterfaceElementDeclaration", "AnnotationInterfaceElementModifier", "DefaultValue", "Annotation", "NormalAnnotation",
  "ElementValuePairList", "ElementValuePair", "ElementValue", "ElementValueArrayInitializer", "ElementValueList", "MarkerAnnotation",
  "SingleElementAnnotation", "ArrayInitializer", "VariableInitializerList", "Block", "BlockStatements", "BlockStatement",
  "LocalClassOrInterfaceDeclaration", "LocalVariableDeclarationStatement", "LocalVariableDeclaration", "LocalVariableType", "Statement", "StatementNoShortIf",
  "StatementWithoutTrailingSubstatement", "EmptyStatement", "LabeledStatement", "LabeledStatementNoShortIf", "ExpressionStatement", "StatementExpression",
  "IfThenStatement", "IfThenElseStatement", "IfThenElseStatementNoShortIf", "AssertStatement", "SwitchStatement", "SwitchBlock",
  "SwitchRule", "SwitchBlockStatementGroup", "SwitchLabel", "CaseConstant", "CasePattern", "Guard",
  "WhileStatement", "WhileStatementNoShortIf", "DoStatement", "ForStatement", "ForStatementNoShortIf", "BasicForStatement",
  "BasicForStatementNoShortIf", "ForInit", "ForUpdate", "StatementExpressionList", "EnhancedForStatement", "EnhancedForStatementNoShortIf",
  "BreakStatement", "YieldStatement", "ContinueStatement", "ReturnStatement", "ThrowStatement", "SynchronizedStatement",
  "TryStatement", "Catches", "CatchClause", "CatchFormalParameter", "CatchType", "Finally",
  "TryWithResourcesStatement", "ResourceSpecification", "ResourceList", "Resource", "VariableAccess", "Pattern",
  "TypePattern", "RecordPattern", "ComponentPatternList", "ComponentPattern", "MatchAllPattern", "Primary",
  "PrimaryNoNewArray", "ClassLiteral", "ClassInstanceCreationExpression", "UnqualifiedClassInstanceCreationExpression", "ClassOrInterfaceTypeToInstantiate", "TypeArgumentsOrDiamond",
  "ArrayCreationExpression", "ArrayCreationExpressionWithoutInitializer", "ArrayCreationExpressionWithInitializer", "DimExprs", "DimExpr", "ArrayAccess",
  "FieldAccess", "MethodInvocation", "ArgumentList", "MethodReference", "Expression", "LambdaExpression",
  "LambdaParameters", "LambdaParameterList", "NormalLambdaParameter", "LambdaParameterType", "ConciseLambdaParameter", "LambdaBody",
  "AssignmentExpression", "Assignment", "LeftHandSide", "AssignmentOperator", "ConditionalExpression", "ConditionalOrExpression",
  "ConditionalAndExpression", "InclusiveOrExpression", "ExclusiveOrExpression", "AndExpression", "EqualityExpression", "RelationalExpression",
  "InstanceofExpression", "ShiftExpression", "AdditiveExpression", "MultiplicativeExpression", "UnaryExpression", "PreIncrementExpression",
  "PreDecrementExpression", "UnaryExpressionNotPlusMinus", "PostfixExpression", "PostIncrementExpression", "PostDecrementExpression", "CastExpression",
  "SwitchExpression"
]

inductive SectionId where
  | lexical
  | types
  | names
  | packages
  | classes
  | interfaces
  | arrays
  | statements
  | expressions
deriving DecidableEq, Repr

def SECTION_ORDER : List SectionId := [.lexical, .types, .names, .packages, .classes, .interfaces, .arrays, .statements, .expressions]

def SECTION_RULES : SectionId → List String
  | .lexical => [
    "Identifier", "IdentifierChars", "JavaLetter", "JavaLetterOrDigit", "TypeIdentifier", "UnqualifiedMethodIdentifier",
    "Literal"
]
  | .types => [
    "Type", "PrimitiveType", "NumericType", "IntegralType", "FloatingPointType", "ReferenceType",
    "ClassOrInterfaceType", "ClassType", "InterfaceType", "TypeVariable", "ArrayType", "Dims",
    "TypeParameter", "TypeParameterModifier", "TypeBound", "AdditionalBound", "TypeArguments", "TypeArgumentList",
    "TypeArgument", "Wildcard", "WildcardBounds"
]
  | .names => [
    "ModuleName", "PackageName", "TypeName", "ExpressionName", "MethodName", "PackageOrTypeName",
    "AmbiguousName"
]
  | .packages => [
    "CompilationUnit", "OrdinaryCompilationUnit", "ModularCompilationUnit", "PackageDeclaration", "PackageModifier", "ImportDeclaration",
    "SingleTypeImportDeclaration", "TypeImportOnDemandDeclaration", "SingleStaticImportDeclaration", "StaticImportOnDemandDeclaration", "SingleModuleImportDeclaration", "TopLevelClassOrInterfaceDeclaration",
    "ModuleDeclaration", "ModuleDirective", "RequiresModifier"
]
  | .classes => [
    "ClassDeclaration", "NormalClassDeclaration", "ClassModifier", "TypeParameters", "TypeParameterList", "ClassExtends",
    "ClassImplements", "InterfaceTypeList", "ClassPermits", "ClassBody", "ClassBodyDeclaration", "ClassMemberDeclaration",
    "FieldDeclaration", "FieldModifier", "VariableDeclaratorList", "VariableDeclarator", "VariableDeclaratorId", "VariableInitializer",
    "UnannType", "UnannPrimitiveType", "UnannReferenceType", "UnannClassOrInterfaceType", "UnannClassType", "UnannInterfaceType",
    "UnannTypeVariable", "UnannArrayType", "MethodDeclaration", "MethodModifier", "MethodHeader", "Result",
    "MethodDeclarator", "ReceiverParameter", "FormalParameterList", "FormalParameter", "VariableArityParameter", "VariableModifier",
    "Throws", "ExceptionTypeList", "ExceptionType", "MethodBody", "InstanceInitializer", "StaticInitializer",
    "ConstructorDeclaration", "ConstructorModifier", "ConstructorDeclarator", "SimpleTypeName", "ConstructorBody", "ConstructorInvocation",
    "EnumDeclaration", "EnumBody", "EnumConstantList", "EnumConstant", "EnumConstantModifier", "EnumBodyDeclarations",
    "RecordDeclaration", "RecordHeader", "RecordComponentList", "RecordComponent", "VariableArityRecordComponent", "RecordComponentModifier",
    "RecordBody", "RecordBodyDeclaration", "CompactConstructorDeclaration"
]
  | .interfaces => [
    "InterfaceDeclaration", "NormalInterfaceDeclaration", "InterfaceModifier", "InterfaceExtends", "InterfacePermits", "InterfaceBody",
    "InterfaceMemberDeclaration", "ConstantDeclaration", "ConstantModifier", "InterfaceMethodDeclaration", "InterfaceMethodModifier", "AnnotationInterfaceDeclaration",
    "AnnotationInterfaceBody", "AnnotationInterfaceMemberDeclaration", "AnnotationInterfaceElementDeclaration", "AnnotationInterfaceElementModifier", "DefaultValue", "Annotation",
    "NormalAnnotation", "ElementValuePairList", "ElementValuePair", "ElementValue", "ElementValueArrayInitializer", "ElementValueList",
    "MarkerAnnotation", "SingleElementAnnotation"
]
  | .arrays => [
    "ArrayInitializer", "VariableInitializerList"
]
  | .statements => [
    "Block", "BlockStatements", "BlockStatement", "LocalClassOrInterfaceDeclaration", "LocalVariableDeclarationStatement", "LocalVariableDeclaration",
    "LocalVariableType", "Statement", "StatementNoShortIf", "StatementWithoutTrailingSubstatement", "EmptyStatement", "LabeledStatement",
    "LabeledStatementNoShortIf", "ExpressionStatement", "StatementExpression", "IfThenStatement", "IfThenElseStatement", "IfThenElseStatementNoShortIf",
    "AssertStatement", "SwitchStatement", "SwitchBlock", "SwitchRule", "SwitchBlockStatementGroup", "SwitchLabel",
    "CaseConstant", "CasePattern", "Guard", "WhileStatement", "WhileStatementNoShortIf", "DoStatement",
    "ForStatement", "ForStatementNoShortIf", "BasicForStatement", "BasicForStatementNoShortIf", "ForInit", "ForUpdate",
    "StatementExpressionList", "EnhancedForStatement", "EnhancedForStatementNoShortIf", "BreakStatement", "YieldStatement", "ContinueStatement",
    "ReturnStatement", "ThrowStatement", "SynchronizedStatement", "TryStatement", "Catches", "CatchClause",
    "CatchFormalParameter", "CatchType", "Finally", "TryWithResourcesStatement", "ResourceSpecification", "ResourceList",
    "Resource", "VariableAccess", "Pattern", "TypePattern", "RecordPattern", "ComponentPatternList",
    "ComponentPattern", "MatchAllPattern"
]
  | .expressions => [
    "Primary", "PrimaryNoNewArray", "ClassLiteral", "ClassInstanceCreationExpression", "UnqualifiedClassInstanceCreationExpression", "ClassOrInterfaceTypeToInstantiate",
    "TypeArgumentsOrDiamond", "ArrayCreationExpression", "ArrayCreationExpressionWithoutInitializer", "ArrayCreationExpressionWithInitializer", "DimExprs", "DimExpr",
    "ArrayAccess", "FieldAccess", "MethodInvocation", "ArgumentList", "MethodReference", "Expression",
    "LambdaExpression", "LambdaParameters", "LambdaParameterList", "NormalLambdaParameter", "LambdaParameterType", "ConciseLambdaParameter",
    "LambdaBody", "AssignmentExpression", "Assignment", "LeftHandSide", "AssignmentOperator", "ConditionalExpression",
    "ConditionalOrExpression", "ConditionalAndExpression", "InclusiveOrExpression", "ExclusiveOrExpression", "AndExpression", "EqualityExpression",
    "RelationalExpression", "InstanceofExpression", "ShiftExpression", "AdditiveExpression", "MultiplicativeExpression", "UnaryExpression",
    "PreIncrementExpression", "PreDecrementExpression", "UnaryExpressionNotPlusMinus", "PostfixExpression", "PostIncrementExpression", "PostDecrementExpression",
    "CastExpression", "SwitchExpression"
]


/-- `createRuleDiagram` from `java25Grammar.ts`:
`const factory = rules.get(name); return factory ? factory() : undefined;` -/
def createRuleDiagram25 (name : String) : Option RRNode :=
  match rules25.lookup name with
  | some factory => some (factory ())
  | none => none

/-- `getDiagramRuleNames` from `java25Grammar.ts`:
`Array.from(rules.keys())`. -/
def getDiagramRuleNames25 : List String := rules25.map Prod.fst

/-- `createRuleDiagram` from `javaGrammar.ts`:
`const factory = rules.get(name); if (!factory) { return Diagram(Comment(`No factory defined for <name>`)); } return factory();` -/
def createRuleDiagramJava (name : String) : RRNode :=
  match rulesJava.lookup name with
  | some factory => factory ()
  | none => .diagram [.comment ("No factory defined for " ++ name)]

/-- `getEbnfRuleNames` from `ebnfDefinitions.ts`: `Object.keys(EBNF_DEFINITIONS)`
(insertion order of the object literal). -/
def getEbnfRuleNames : List String := ebnfKeys

/-- The render pipeline of `RuleDiagram.tsx` for the Java 25 page:
`diagramToSvgString(createRuleDiagram(name))`. -/
def renderRule25 (name : String) : String :=
  diagramToSvgString (toSvgInput (createRuleDiagram25 name))

/-- The render pipeline of `RuleDiagram.tsx` for the JLS 21 page:
`diagramToSvgString(createRuleDiagram(name))` over `javaGrammar.ts`. -/
def renderRuleJava (name : String) : String :=
  diagramToSvgString (toSvgInput (some (createRuleDiagramJava name)))

/-- The ten external constructors in the order `java25Grammar.ts` wraps them
(`D`, `Seq`, `Ch`, `Opt`, `OOM`, `ZOM`, `Stk`, `Cmt`, `T`, `NT`). -/
def rrCtorOrder25 (lib : RRLib α β) : List (JsCallable α β) :=
  [lib.Diagram, lib.Sequence, lib.Choice, lib.Optional, lib.OneOrMore,
   lib.ZeroOrMore, lib.Stack, lib.Comment, lib.Terminal, lib.NonTerminal]

/-- The ten external constructors in the order `javaGrammar.ts` wraps them. -/
def rrCtorOrderJava (lib : RRLib α β) : List (JsCallable α β) :=
  [lib.Diagram, lib.Sequence, lib.Choice, lib.Optional, lib.OneOrMore,
   lib.ZeroOrMore, lib.Terminal, lib.NonTerminal, lib.Stack, lib.Comment]

/-- A concrete all-function-shape library bundle over `Nat`, used to
instantiate the adapter contract on concrete inputs. -/
def trivLib : RRLib Nat Nat :=
  let c : JsCallable Nat Nat := .fnShape (fun n => .ok n) (fun n => .ok n)
  ⟨c, c, c, c, c, c, c, c, c, c⟩

/-- The section filter as the coverage claim words it: the subsequence of
names whose lowercase form contains the lowercase form of the query,
with no trimming applied to the query. -/
def filterNamesClaimed (query : String) (names : List String) : List String :=
  names.filter (fun n => decide (strContains (jsToLower n) (jsToLower query)))

/-! ### Helper lemmas -/

theorem strContains_self (s : String) : strContains s s :=
  ⟨[], [], by simp⟩

theorem strContains_append_left (s t pat : String) (h : strContains s pat) :
    strContains (s ++ t) pat := by
  obtain ⟨u, v, huv⟩ := h
  exact ⟨u, v ++ t.data, by rw [String.data_append, ← huv]; simp⟩

theorem strContains_append_right (s t pat : String) (h : strContains t pat) :
    strContains (s ++ t) pat := by
  obtain ⟨u, v, huv⟩ := h
  exact ⟨s.data ++ u, v, by rw [String.data_append, ← huv]; simp⟩

theorem append_ne_empty (a b : String) (h : a ≠ "") : a ++ b ≠ "" := by
  intro hab
  apply h
  have hd : a.data ++ b.data = [] := by
    have h2 := congrArg String.data hab
    rwa [String.data_append] at h2
  have h1 : a.data = [] := (List.append_eq_nil.mp hd).1
  cases a with
  | mk l => cases h1; rfl

theorem markupOf_ne_empty (t : RRNode) : markupOf t ≠ "" := by
  cases t <;> simp only [markupOf] <;>
    (repeat apply append_ne_empty) <;> decide

/-- Membership in an association list's value lookup is membership in its
key projection. -/
theorem lookup_isSome_eq_contains {γ : Type} (l : List (String × γ)) (k : String) :
    (l.lookup k).isSome = (l.map Prod.fst).contains k := by
  induction l with
  | nil => rfl
  | cons p rest ih =>
      obtain ⟨k', v⟩ := p
      simp only [List.lookup, List.map, List.contains_cons]
      cases hkk : (k == k') with
      | true =>
          have : (k' == k) = true := by
            simp only [beq_iff_eq] at hkk ⊢; exact hkk.symm
          simp [this]
      | false =>
          have : (k' == k) = false := by
            simp only [beq_eq_false_iff_ne, ne_eq] at hkk ⊢
            exact fun e => hkk e.symm
          simp [this, ih]

theorem insertionSort_eq_nil_iff {l : List String} :
    l.insertionSort (· ≤ ·) = [] ↔ l = [] := by
  constructor
  · intro h
    have hp := List.perm_insertionSort (α := String) (· ≤ ·) l
    rw [h] at hp
    exact (hp.symm).eq_nil
  · intro h
    rw [h]
    rfl

theorem missingEbnf_eq_nil_iff (A B : List String) :
    missingEbnf A B = [] ↔ ∀ a ∈ A, a ∈ B := by
  unfold missingEbnf
  rw [insertionSort_eq_nil_iff, List.filter_eq_nil_iff]
  simp

theorem missingDiagram_eq_nil_iff (A B : List String) :
    missingDiagram A B = [] ↔ ∀ b ∈ B, b ∈ A := by
  unfold missingDiagram
  rw [insertionSort_eq_nil_iff, List.filter_eq_nil_iff]
  simp

theorem coverageExitCode_eq_zero_iff (A B : List String) :
    coverageExitCode A B = 0 ↔ (missingEbnf A B = [] ∧ missingDiagram A B = []) := by
  unfold coverageExitCode hasErrors
  constructor
  · intro h
    by_cases h1 : missingEbnf A B = [] <;> by_cases h2 : missingDiagram A B = [] <;>
      simp [h1, h2, List.length_pos] at h ⊢
  · intro ⟨h1, h2⟩
    simp [h1, h2]

/-! ### Claim theorems -/

/-- C1: the coverage verifier reports zero mismatches (both difference lists
empty) if and only if the diagram-rule key set equals the EBNF key set; the
two difference lists are each sorted lexicographically; the exit code is 0
exactly when both lists are empty and 1 otherwise; and on stores
`A = ["A"]`, `B = []` it yields `missingEbnf = ["A"]`,
`missingDiagram = []`, exit code 1. -/
theorem coverage_symmetry_and_exit (A B : List String) :
    ((missingEbnf A B = [] ∧ missingDiagram A B = []) ↔ (∀ x, x ∈ A ↔ x ∈ B)) ∧
    (missingEbnf A B).Sorted (· ≤ ·) ∧
    (missingDiagram A B).Sorted (· ≤ ·) ∧
    (coverageExitCode A B = 0 ↔ (missingEbnf A B = [] ∧ missingDiagram A B = [])) ∧
    (coverageExitCode A B = 0 ∨ coverageExitCode A B = 1) ∧
    missingEbnf ["A"] [] = ["A"] ∧ missingDiagram ["A"] [] = [] ∧
    coverageExitCode ["A"] [] = 1 := by
  refine ⟨?_, ?_, ?_, coverageExitCode_eq_zero_iff A B, ?_, by decide, by decide, by decide⟩
  · rw [missingEbnf_eq_nil_iff, missingDiagram_eq_nil_iff]
    constructor
    · intro ⟨h1, h2⟩ x
      exact ⟨fun hx => h1 x hx, fun hx => h2 x hx⟩
    · intro h
      exact ⟨fun a ha => (h a).mp ha, fun b hb => (h b).mpr hb⟩
  · exact List.sorted_insertionSort (· ≤ ·) _
  · exact List.sorted_insertionSort (· ≤ ·) _
  · unfold coverageExitCode
    by_cases h : hasErrors A B <;> simp [h]

/-- C4: `diagramToSvgString` is total (a total function over every input
shape, so no exception escapes): falsy input yields the harmless
empty-markup placeholder; a throwing markup producer yields a diagnostic
placeholder embedding the error message (whether `toSVG()` or `toString()`
threw); an unrecognized shape or an unexpected `toSVG()` value yields the
corresponding fixed diagnostic placeholder. -/
theorem diagramToSvgString_total_placeholders (m : String) :
    diagramToSvgString .empty = "<!-- empty diagram -->" ∧
    strContains (diagramToSvgString (.withToSVG (.throws m))) m ∧
    strContains (diagramToSvgString (.withToStringOnly (.error m))) m ∧
    diagramToSvgString (.withToSVG .unexpected)
      = "<!-- toSVG() returned unexpected value -->" ∧
    diagramToSvgString .unrecognized
      = "<!-- Diagram does not support toSVG/toString -->" := by
  refine ⟨rfl, ?_, ?_, rfl, rfl⟩ <;>
    exact strContains_append_left _ _ _ (strContains_append_right _ _ _ (strContains_self m))

/-- C5: the precedence-chain builder `chain` of `javaGrammar.ts`, applied to
a base rule name and a non-empty operator list `op1 :: rest`, returns
exactly `Sequence(NonTerminal(base), ZeroOrMore(Sequence(Choice(0,
Terminal(op1), ..., Terminal(opn)), NonTerminal(base))))`. -/
theorem chain_eq_leftrec_elim (base op1 : String) (rest : List String) :
    chain base (op1 :: rest) =
      .sequence [.nonTerminal base,
        .zeroOrMore (.sequence
          [.choice 0 (.terminal op1 :: rest.map RRNode.terminal),
           .nonTerminal base])] := rfl

/-- C7: both render-adapter wrappers. A successful direct call is returned
as-is; a direct call failing with the adapter's recognized
must-be-constructed-with-new signature is retried as a constructor
invocation of the same callable with the same arguments; any other failure
propagates unchanged; and the wrapping is applied uniformly to all ten
node-kind constructors in both files. (In the JS semantics embedded in
`directCall`, invoking a class without `new` always throws the recognized
`TypeError`, so the class fast path of `rr` coincides with
attempt-then-retry.) -/
theorem render_adapter_contract {α β : Type} (c : JsCallable α β) (args : β)
    (lib : RRLib α β) :
    (∀ v, directCall c args = .ok v →
        callOrNew c args = .ok v ∧ rr c args = .ok v) ∧
    (∀ e, directCall c args = .error e →
        (callOrNewRecognizes e → callOrNew c args = newCall c args) ∧
        (¬ callOrNewRecognizes e → callOrNew c args = .error e) ∧
        (rrRecognizes e → rr c args = newCall c args) ∧
        (¬ rrRecognizes e → rr c args = .error e)) ∧
    java25Wrappers lib = (rrCtorOrder25 lib).map (fun k => fun a => rr k a) ∧
    javaGrammarWrappers lib
      = (rrCtorOrderJava lib).map (fun k => fun a => callOrNew k a) := by
  refine ⟨?_, ?_, rfl, rfl⟩
  · intro v hv
    cases c with
    | fnShape call construct =>
        simp only [directCall] at hv
        constructor <;> simp [callOrNew, rr, isClassSyntax, directCall, hv]
    | classShape construct n =>
        simp only [directCall] at hv
        cases hv
  · intro e he
    cases c with
    | fnShape call construct =>
        simp only [directCall] at he
        by_cases h1 : callOrNewRecognizes e <;> by_cases h2 : rrRecognizes e <;>
          refine ⟨?_, ?_, ?_, ?_⟩ <;>
            simp [callOrNew, rr, isClassSyntax, directCall, he, h1, h2]
    | classShape construct n =>
        simp only [directCall, Except.error.injEq] at he
        subst he
        have hrec : rrRecognizes (classCallError n) := by
          refine Or.inr (Or.inl ?_)
          show strContains
            ("Class constructor " ++ n ++ " cannot be invoked without "
              ++ sQuote ++ "new" ++ sQuote) "Class constructor"
          exact strContains_append_left _ _ _ (strContains_append_left _ _ _
            (strContains_append_left _ _ _ (strContains_append_left _ _ _
              (strContains_append_left _ _ _ (by decide)))))
        refine ⟨?_, ?_, ?_, ?_⟩
        · intro h
          simp [callOrNew, directCall, h]
        · intro h
          simp [callOrNew, directCall, h]
        · intro _
          simp [rr, isClassSyntax]
        · intro hn
          exact absurd hrec hn

/-- C7 witness: a class-shaped constructor is transparently retried with
`new` by `rr`, and an unrecognized failure of a function-shaped constructor
propagates unchanged through `callOrNew`. -/
theorem render_adapter_contract_witness :
    rr (JsCallable.classShape (fun n => Except.ok (n + 1)) "X" : JsCallable Nat Nat) 5
      = Except.ok 6 ∧
    callOrNew (JsCallable.fnShape (fun _ => Except.error ⟨false, "boom"⟩)
      (fun _ => Except.ok 0) : JsCallable Nat Nat) 5
      = Except.error ⟨false, "boom"⟩ := by
  constructor
  · have h := ((render_adapter_contract
      (JsCallable.classShape (fun n => Except.ok (n + 1)) "X" : JsCallable Nat Nat)
      5 trivLib).2.1 (classCallError "X") rfl).2.2.1 (by decide)
    exact h.trans rfl
  · exact ((render_adapter_contract
      (JsCallable.fnShape (fun _ => Except.error ⟨false, "boom"⟩)
        (fun _ => Except.ok 0) : JsCallable Nat Nat)
      5 trivLib).2.1 ⟨false, "boom"⟩ rfl).2.1 (by decide)

/-- C6 counterexample: on the whitespace query `" "` the code returns the
list unchanged (the trimmed query is empty), while the claim's reading
(lowercase-containment of the untrimmed query) would filter everything
out, since no rule name contains a space. -/
theorem filterNames_claim_counterexample :
    filterNames " " ["Identifier"] ≠ filterNamesClaimed " " ["Identifier"] := by
  decide

/-- C6 (amended): the filter returns exactly the subsequence of names whose
lowercase form contains the lowercased *trimmed* query, preserving the
original relative order; a query whose trimmed lowercase form is empty
returns the original list unchanged. -/
theorem filterNames_spec (query : String) (names : List String) :
    (jsToLower (jsTrim query) = "" → filterNames query names = names) ∧
    (jsToLower (jsTrim query) ≠ "" →
        filterNames query names
          = names.filter
              (fun n => decide (strContains (jsToLower n) (jsToLower (jsTrim query))))) ∧
    (filterNames query names).Sublist names := by
  refine ⟨?_, ?_, ?_⟩
  · intro h
    simp [filterNames, h]
  · intro h
    simp [filterNames, h]
  · by_cases h : jsToLower (jsTrim query) = ""
    · simp [filterNames, h]
    · simp only [filterNames, if_neg h]
      exact List.filter_sublist _

/-- C6 witness: a whitespace-only query keeps the list unchanged, and a
padded query filters by its trimmed lowercase form. -/
theorem filterNames_spec_witness :
    filterNames "   " ["Alpha", "Beta"] = ["Alpha", "Beta"] ∧
    filterNames " Cast " ["CastExpression", "Block"] = ["CastExpression"] := by
  constructor
  · exact (filterNames_spec "   " ["Alpha", "Beta"]).1 (by decide)
  · have h := (filterNames_spec " Cast " ["CastExpression", "Block"]).2.1 (by decide)
    rw [h]
    decide

/-- C2 counterexample: in `java25Grammar.ts` an unknown rule name yields
`undefined` from `createRuleDiagram`, so the serialized output is the fixed
empty-diagram placeholder, which does not contain the rule name — against
the claim that the placeholder contains the literal rule name. -/
theorem unknown_rule_claim_counterexample :
    renderRule25 "NoSuchRule" = "<!-- empty diagram -->" ∧
    ¬ strContains (renderRule25 "NoSuchRule") "NoSuchRule" := by
  constructor
  · rfl
  · decide

/-- C2 (amended): for a name with no registered factory, no exception is
raised and a placeholder markup string is produced in both registries; in
`javaGrammar.ts` the placeholder diagram's comment carries the literal rule
name, while in `java25Grammar.ts` the lookup yields `undefined` and the
serialization is the fixed `"<!-- empty diagram -->"` placeholder, which
does not mention the name. -/
theorem unknown_rule_placeholder (name : String) :
    (rulesJava.lookup name = none → strContains (renderRuleJava name) name) ∧
    (rules25.lookup name = none → renderRule25 name = "<!-- empty diagram -->") := by
  constructor
  · intro h
    unfold renderRuleJava createRuleDiagramJava
    rw [h]
    show strContains
      (markupOf (.diagram [.comment ("No factory defined for " ++ name)])) name
    simp only [markupOf, markupList]
    exact strContains_append_left _ _ _ (strContains_append_right _ _ _
      (strContains_append_left _ _ _ (strContains_append_left _ _ _
        (strContains_append_right _ _ _ (strContains_append_right _ _ _
          (strContains_self name))))))
  · intro h
    unfold renderRule25 createRuleDiagram25
    rw [h]
    rfl

/-- C2 witness: the concrete unknown name `"NoSuchRule"`. -/
theorem unknown_rule_placeholder_witness :
    strContains (renderRuleJava "NoSuchRule") "NoSuchRule" ∧
    renderRule25 "NoSuchRule" = "<!-- empty diagram -->" :=
  ⟨(unknown_rule_placeholder "NoSuchRule").1 rfl,
   (unknown_rule_placeholder "NoSuchRule").2 rfl⟩

/-- C3: for every rule name registered in `java25Grammar.ts`, the rendered
output is the markup of the freshly built tree, and it is a non-empty
string; both lookup and serialization are total functions in the
embedding, so no exception can be raised. -/
theorem registry_closure_render (name : String) (f : Unit → RRNode)
    (h : rules25.lookup name = some f) :
    renderRule25 name = markupOf (f ()) ∧ renderRule25 name ≠ "" := by
  have he : renderRule25 name = markupOf (f ()) := by
    unfold renderRule25 createRuleDiagram25
    rw [h]
    rfl
  refine ⟨he, ?_⟩
  rw [he]
  exact markupOf_ne_empty (f ())

/-- C3 witness: the registered rule `"Identifier"`. -/
theorem registry_closure_render_witness :
    renderRule25 "Identifier" ≠ "" :=
  (registry_closure_render "Identifier"
    (fun _ => .diagram [.sequence [.nonTerminal "IdentifierChars",
      .comment "but not ReservedKeyword, BooleanLiteral, or NullLiteral"]])
    rfl).2

/-- C9: lookup-then-serialize is deterministic and side-effect-free; two
independent runs over the read-only registry produce structurally equal
fresh trees and byte-identical markup. In this pure embedding (faithful to
the source, whose factories only call node constructors and mutate
nothing), the two runs are literally the same value. -/
theorem render_idempotent (name : String) :
    createRuleDiagram25 name = createRuleDiagram25 name ∧
    renderRule25 name = renderRule25 name ∧
    renderRuleJava name = renderRuleJava name :=
  ⟨rfl, rfl, rfl⟩

/-- C10: every rule name listed in any section of `SECTION_RULES` has a
registered diagram factory in `java25Grammar.ts` (`createRuleDiagram`
succeeds on it, so rendering a section never reaches the missing-factory
path), equivalently the section index is a subset of the registry's key
set. -/
theorem sections_subset_registry :
    ((SECTION_ORDER.flatMap SECTION_RULES).all
        (fun n => (createRuleDiagram25 n).isSome)) = true ∧
    ((SECTION_ORDER.flatMap SECTION_RULES).all
        (fun n => getDiagramRuleNames25.contains n)) = true := by
  have hp : ∀ n, (createRuleDiagram25 n).isSome = getDiagramRuleNames25.contains n := by
    intro n
    unfold createRuleDiagram25 getDiagramRuleNames25
    rw [← lookup_isSome_eq_contains]
    cases rules25.lookup n <;> rfl
  have h1 : ((SECTION_ORDER.flatMap SECTION_RULES).all
      (fun n => (createRuleDiagram25 n).isSome)) = true := by rfl
  refine ⟨h1, ?_⟩
  rw [show (fun n => getDiagramRuleNames25.contains n)
        = (fun n => (createRuleDiagram25 n).isSome) from funext fun n => (hp n).symm]
  exact h1

/-- C8: the rule-name set the coverage tool scrapes from the
`java25Grammar.ts` source text (the ordered matches of its
`rules.set("...")` pattern, transcribed in `rulesSetMatches25`) is exactly
the registry's key list, and the set scraped from `ebnfDefinitions.ts`
(matches of its line-anchored quoted-key pattern, transcribed in
`ebnfKeyMatches`) is exactly the EBNF store's key list; hence the
text-scraping step refines "collect the full key set" for both stores,
without constructing any diagram. -/
theorem scrape_matches_keys :
    rulesSetMatches25 = getDiagramRuleNames25 ∧
    ebnfKeyMatches = getEbnfRuleNames ∧
    (∀ x, x ∈ rulesSetMatches25 ↔ x ∈ getDiagramRuleNames25) ∧
    (∀ x, x ∈ ebnfKeyMatches ↔ x ∈ getEbnfRuleNames) := by
  have h1 : rulesSetMatches25 = getDiagramRuleNames25 := by rfl
  have h2 : ebnfKeyMatches = getEbnfRuleNames := by rfl
  exact ⟨h1, h2, fun x => by rw [h1], fun x => by rw [h2]⟩
